import Mathlib

/-!
# Verification of the asynchronous recommendation-job pipeline

A shallow embedding of the recommendation router (the `/generate`
background pipeline, the job store, the status endpoint, the history
endpoint, the prompt builder, the PDF text extractor and the
LLM-response parser) together with proofs and refutations of the
specification's claims about it.

The embedding follows the most evolved variant of the router
(`src/unnamed/part_002`); the history/sort code is identical in
`src/routes/recommendations.js`.

Conventions of the embedding:
* JavaScript runtime values are modelled by `JsVal`.  JavaScript
  numbers are modelled as integers (every numeral handled by this API
  is an integer).  `ToNumber` coercion of objects is not modelled:
  comparing a non-number with `>` yields `false`, as it does in
  JavaScript for `undefined`.
* Code that can raise a JavaScript exception lives in
  `Except String _`; `try { … } catch { … }` becomes a `match` on that
  result.  `console.log`/`console.error` calls are effect-free and are
  dropped, except where an expression inside them can itself throw
  (noted where it matters).
* I/O performed by the pipeline (reading the PDF, `pdf-parse`, the
  axios call to the RAG retriever) is supplied by environment records
  whose fields hold the outcome of each external call.
-/

/-- A JavaScript runtime value (as far as the router manipulates them).
Numbers are restricted to integers, which covers every numeral this
API produces or consumes. -/
inductive JsVal where
  | null : JsVal
  | undef : JsVal
  | bool : Bool → JsVal
  | num : Int → JsVal
  | str : String → JsVal
  | arr : List JsVal → JsVal
  | obj : List (String × JsVal) → JsVal

/-- JavaScript truthiness: `null`, `undefined`, `false`, `0` and `""`
are falsy, everything else (including `[]` and `\x7b\x7d`) is truthy. -/
def JsVal.truthy : JsVal → Bool
  | .null => false
  | .undef => false
  | .bool b => b
  | .num n => n != 0
  | .str s => !s.isEmpty
  | .arr _ => true
  | .obj _ => true

/-- Property access `v.k`.  Throws a `TypeError` on `null`/`undefined`;
yields `undefined` for a missing property; `length` is supported on
strings and arrays.  (Method values themselves are not modelled; the
call sites that invoke methods are modelled directly.) -/
def JsVal.getProp : JsVal → String → Except String JsVal
  | .null, k => .error ("TypeError: Cannot read properties of null (reading " ++ k ++ ")")
  | .undef, k => .error ("TypeError: Cannot read properties of undefined (reading " ++ k ++ ")")
  | .str s, k => .ok (if k = "length" then .num s.length else .undef)
  | .arr xs, k => .ok (if k = "length" then .num xs.length else .undef)
  | .obj fs, k => .ok ((fs.lookup k).getD .undef)
  | .bool _, _ => .ok (.undef)
  | .num _, _ => .ok (.undef)

/-- Total property lookup, defined for any receiver; it agrees with
`JsVal.getProp` whenever the receiver is not `null`/`undefined`. -/
def JsVal.propD (v : JsVal) (k : String) : JsVal :=
  match v.getProp k with
  | .ok w => w
  | .error _ => (.undef)

/-- The JavaScript comparison `v > 0` as it occurs in the router
(`filters.cardTypes.length > 0`).  The compared value is a number or
`undefined` there; for other shapes the (unmodelled) `ToNumber`
coercion is approximated by `false`. -/
def JsVal.gtZero : JsVal → Bool
  | .num n => 0 < n
  | _ => false

mutual

/-- JavaScript `ToString`, as used by template-literal interpolation. -/
def JsVal.jsToString : JsVal → String
  | .null => "null"
  | .undef => "undefined"
  | .bool true => "true"
  | .bool false => "false"
  | .num n => toString n
  | .str s => s
  | .arr xs => String.intercalate "," (jsToStringElems xs)
  | .obj _ => "[object Object]"

/-- Elementwise stringification used by `Array.prototype.join` and
array `ToString`: `null` and `undefined` become the empty string. -/
def jsToStringElems : List JsVal → List String
  | [] => []
  | .null :: vs => "" :: jsToStringElems vs
  | .undef :: vs => "" :: jsToStringElems vs
  | v :: vs => v.jsToString :: jsToStringElems vs

end

/-- `Array.prototype.join(sep)`.  Throws a `TypeError` when the
receiver is not an array (there is no `join` method to call). -/
def JsVal.joinSep : JsVal → String → Except String String
  | .arr xs, sep => .ok (String.intercalate sep (jsToStringElems xs))
  | _, _ => .error "TypeError: filters value .join is not a function"

/-- The items rendered by `join(", ")` on an array of labels. -/
def joinedLabels (xs : List JsVal) : String :=
  String.intercalate ", " (jsToStringElems xs)

/-- `Array.isArray`. -/
def JsVal.isArr : JsVal → Bool
  | .arr _ => true
  | _ => false

/- Delimiter characters, defined via their code points. -/

def lbraceChar : Char := Char.ofNat 123

def rbraceChar : Char := Char.ofNat 125

def lbrackChar : Char := Char.ofNat 91

def rbrackChar : Char := Char.ofNat 93

def quoteChar : Char := Char.ofNat 34

def backslashChar : Char := Char.ofNat 92

/-! ## A model of `JSON.parse`

A total, fuel-indexed recursive-descent parser producing a `JsVal`.
Restrictions relative to the engine's `JSON.parse` (irrelevant for any
payload of this API and for the claims): numeric literals are
integers, and raw control characters inside strings are accepted. -/

/-- Skip JSON whitespace. -/
def jsonSkipWs : List Char → List Char
  | [] => []
  | c :: rest =>
    if c = ' ' || c = '\n' || c = '\t' || c = '\r' then jsonSkipWs rest else c :: rest

/-- Value of a hex digit, if any. -/
def hexDigitVal (c : Char) : Option Nat :=
  if '0' ≤ c ∧ c ≤ '9' then some (c.toNat - '0'.toNat)
  else if 'a' ≤ c ∧ c ≤ 'f' then some (c.toNat - 'a'.toNat + 10)
  else if 'A' ≤ c ∧ c ≤ 'F' then some (c.toNat - 'A'.toNat + 10)
  else none

/-- Parse the body of a JSON string literal (after the opening quote),
returning the decoded string and the input after the closing quote. -/
def parseJsonStringBody : List Char → List Char → Option (String × List Char)
  | [], _ => none
  | c :: rest, acc =>
    if c = quoteChar then some (String.mk acc.reverse, rest)
    else if c = backslashChar then
      match rest with
      | [] => none
      | e :: rest2 =>
        if e = quoteChar then parseJsonStringBody rest2 (quoteChar :: acc)
        else if e = backslashChar then parseJsonStringBody rest2 (backslashChar :: acc)
        else if e = '/' then parseJsonStringBody rest2 ('/' :: acc)
        else if e = 'n' then parseJsonStringBody rest2 ('\n' :: acc)
        else if e = 't' then parseJsonStringBody rest2 ('\t' :: acc)
        else if e = 'r' then parseJsonStringBody rest2 ('\r' :: acc)
        else if e = 'b' then parseJsonStringBody rest2 (Char.ofNat 8 :: acc)
        else if e = 'f' then parseJsonStringBody rest2 (Char.ofNat 12 :: acc)
        else if e = 'u' then
          match rest2 with
          | h1 :: h2 :: h3 :: h4 :: rest3 =>
            match hexDigitVal h1, hexDigitVal h2, hexDigitVal h3, hexDigitVal h4 with
            | some a, some b, some c3, some d =>
              parseJsonStringBody rest3 (Char.ofNat (((a * 16 + b) * 16 + c3) * 16 + d) :: acc)
            | _, _, _, _ => none
          | _ => none
        else none
    else parseJsonStringBody rest (c :: acc)

/-- Parse a run of decimal digits. -/
def parseDigits : List Char → Nat → Option (Nat × List Char)
  | [], acc => some (acc, [])
  | c :: rest, acc =>
    if c.isDigit then parseDigits rest (acc * 10 + (c.toNat - '0'.toNat))
    else some (acc, c :: rest)

/-- Parse a JSON (integer) number literal. -/
def parseJsonNumber : List Char → Option (JsVal × List Char)
  | [] => none
  | c :: rest =>
    if c = '-' then
      match rest with
      | d :: rest2 =>
        if d.isDigit then
          match parseDigits (d :: rest2) 0 with
          | some (n, rest3) => some (.num (-(n : Int)), rest3)
          | none => none
        else none
      | [] => none
    else if c.isDigit then
      match parseDigits (c :: rest) 0 with
      | some (n, rest3) => some (.num (n : Int), rest3)
      | none => none
    else none

mutual

/-- Parse one JSON value (fuel-indexed; callers supply ample fuel). -/
def parseJsonVal : Nat → List Char → Option (JsVal × List Char)
  | 0, _ => none
  | fuel + 1, input =>
    match jsonSkipWs input with
    | [] => none
    | c :: rest =>
      if c = lbraceChar then
        match jsonSkipWs rest with
        | c2 :: rest2 =>
          if c2 = rbraceChar then some (.obj [], rest2)
          else
            match parseJsonFields fuel (c2 :: rest2) with
            | some (fs, rest3) => some (.obj fs, rest3)
            | none => none
        | [] => none
      else if c = lbrackChar then
        match jsonSkipWs rest with
        | c2 :: rest2 =>
          if c2 = rbrackChar then some (.arr [], rest2)
          else
            match parseJsonElems fuel (c2 :: rest2) with
            | some (xs, rest3) => some (.arr xs, rest3)
            | none => none
        | [] => none
      else if c = quoteChar then
        match parseJsonStringBody rest [] with
        | some (s, rest2) => some (.str s, rest2)
        | none => none
      else if c = 'n' then
        match rest with
        | 'u' :: 'l' :: 'l' :: rest2 => some (.null, rest2)
        | _ => none
      else if c = 't' then
        match rest with
        | 'r' :: 'u' :: 'e' :: rest2 => some (.bool true, rest2)
        | _ => none
      else if c = 'f' then
        match rest with
        | 'a' :: 'l' :: 's' :: 'e' :: rest2 => some (.bool false, rest2)
        | _ => none
      else parseJsonNumber (c :: rest)

/-- Parse the (non-empty) comma-separated field list of an object,
up to and including the closing brace. -/
def parseJsonFields : Nat → List Char → Option (List (String × JsVal) × List Char)
  | 0, _ => none
  | fuel + 1, input =>
    match jsonSkipWs input with
    | c :: rest =>
      if c = quoteChar then
        match parseJsonStringBody rest [] with
        | some (key, rest2) =>
          match jsonSkipWs rest2 with
          | ':' :: rest3 =>
            match parseJsonVal fuel rest3 with
            | some (v, rest4) =>
              match jsonSkipWs rest4 with
              | ',' :: rest5 =>
                match parseJsonFields fuel rest5 with
                | some (fs, rest6) => some ((key, v) :: fs, rest6)
                | none => none
              | c6 :: rest5 =>
                if c6 = rbraceChar then some ([(key, v)], rest5) else none
              | [] => none
            | none => none
          | _ => none
        | none => none
      else none
    | [] => none

/-- Parse the (non-empty) comma-separated element list of an array,
up to and including the closing bracket. -/
def parseJsonElems : Nat → List Char → Option (List JsVal × List Char)
  | 0, _ => none
  | fuel + 1, input =>
    match parseJsonVal fuel input with
    | some (v, rest) =>
      match jsonSkipWs rest with
      | ',' :: rest2 =>
        match parseJsonElems fuel rest2 with
        | some (xs, rest3) => some (v :: xs, rest3)
        | none => none
      | c :: rest2 =>
        if c = rbrackChar then some ([v], rest2) else none
      | [] => none
    | none => none

end

/-- The model of `JSON.parse`: failure is the `SyntaxError` the
engine would throw. -/
def jsJSONParse (s : String) : Except String JsVal :=
  match parseJsonVal (2 * s.length + 2) s.data with
  | some (v, rest) =>
    match jsonSkipWs rest with
    | [] => .ok v
    | _ => .error "SyntaxError: Unexpected non-whitespace character after JSON"
  | none => .error "SyntaxError: Unexpected token in JSON"

/-! ## The regex scans of the parsing block

`answerField.match(/\x7b[\s\S]*\x7d/)` finds the earliest position
where the whole pattern can match and is greedy, so it matches from
the first `\x7b` of the text to the last `\x7d` (when the first `\x7b`
precedes the last `\x7d`; otherwise there is no match).  Likewise for
`/\[[\s\S]*\]/` with brackets. -/

/-- Index of the first occurrence of `c`. -/
def firstIdxOf (c : Char) : List Char → Option Nat
  | [] => none
  | d :: rest =>
    if d = c then some 0
    else (firstIdxOf c rest).map (· + 1)

/-- Index of the last occurrence of `c`. -/
def lastIdxOf (c : Char) : List Char → Option Nat
  | [] => none
  | d :: rest =>
    match lastIdxOf c rest with
    | some j => some (j + 1)
    | none => if d = c then some 0 else none

/-- The span matched by a greedy `open … close` regex scan: from the
first occurrence of `copen` to the last occurrence of `cclose`, when
the former strictly precedes the latter. -/
def greedySpanMatch (copen cclose : Char) (s : String) : Option String :=
  match firstIdxOf copen s.data, lastIdxOf cclose s.data with
  | some i, some j =>
    if i < j then some (String.mk ((s.data.drop i).take (j - i + 1))) else none
  | _, _ => none

/-- `answerField.match(/\x7b[\s\S]*\x7d/)`. -/
def braceSpanMatch (s : String) : Option String :=
  greedySpanMatch lbraceChar rbraceChar s

/-- `answerField.match(/\[[\s\S]*\]/)`. -/
def bracketSpanMatch (s : String) : Option String :=
  greedySpanMatch lbrackChar rbrackChar s

/-! ## The prompt builder (`buildRecommendationPrompt`, part_002 lines 23-144)

The template literal is assembled from named segments in the order the
template evaluates its interpolations.  The fixed template text is
split at line boundaries into segments `seg06`-`seg39` joined by
`"\n"`; the assembled string is character-for-character the template's
(each junction `… ++ "\n" ++ …` reproduces the template's line break,
and a segment carries a leading/trailing `"\n"` exactly where the
template has a blank line).  Literal braces of the template text are
written as their escapes. -/

/-- `summaryInstruction` when OCR text is available (part_002 line 26). -/
def summaryInstructionWithDoc : String :=
  "Based on your uploaded statement, analyze the spending patterns and provide a consumer spending analysis (e.g., \"Your spending is primarily in dining (40%), travel (30%), and groceries (20%). Based on these patterns...\"). Then explain WHY you are recommending these specific 3 cards and how they match your spending habits and filter requirements (card network, annual fee, reward types)."

/-- `summaryInstruction` when no OCR text is available (part_002 line 27). -/
def summaryInstructionNoDoc : String :=
  "Since no statement was uploaded, explain WHY you are recommending these specific 3 cards based on the user's filter preferences (card network, annual fee, reward types). Describe what type of consumer would benefit most from these cards."

/-- The `ocrText ? … : …` choice of `summaryInstruction` (part_002 lines 25-27). -/
def summaryInstructionOf (ocrText : JsVal) : String :=
  if ocrText.truthy then summaryInstructionWithDoc else summaryInstructionNoDoc

/-- Template text up to the line preceding the card-network line
(part_002 lines 29-31). -/
def promptIntro : String :=
  "You are a credit card recommendation expert. Based on the user's preferences and spending patterns, recommend suitable credit cards.\n\nUSER PREFERENCES AND FILTERS (ALL FILTERS MUST BE RESPECTED):"

/-- Fixed prefix of the mandatory card-network line. -/
def cardNetworkPre : String := "- Required Card Network: "

/-- Fixed suffix of the mandatory card-network line. -/
def cardNetworkPost : String := " *** MANDATORY - ONLY recommend cards from this network ***"

/-- The line emitted when no card-network constraint applies. -/
def noCardNetworkLine : String := "- No card network restriction"

/-- The card-network line (part_002 line 32):
`filters.cardTypes && filters.cardTypes.length > 0 ? … join … : '- No card network restriction'`. -/
def cardNetworkLineE (filters : JsVal) : Except String String := do
  let ct ← filters.getProp "cardTypes"
  let cond ← if ct.truthy then do
      let l ← ct.getProp "length"
      pure l.gtZero
    else pure false
  if cond then do
    let j ← ct.joinSep ", "
    pure (cardNetworkPre ++ j ++ cardNetworkPost)
  else
    pure noCardNetworkLine

/-- The reward-types line (part_002 line 33). -/
def rewardTypesLineE (filters : JsVal) : Except String String := do
  let rt ← filters.getProp "rewardTypes"
  let cond ← if rt.truthy then do
      let l ← rt.getProp "length"
      pure l.gtZero
    else pure false
  if cond then do
    let j ← rt.joinSep ", "
    pure ("- Desired Reward Types: " ++ j ++ " *** IMPORTANT - Prioritize cards with these reward types ***")
  else
    pure "- No reward type preference"

/-- The annual-fee line (part_002 line 34). -/
def annualFeeLineE (filters : JsVal) : Except String String := do
  let fee ← filters.getProp "annualFeeRange"
  if fee.truthy then
    pure ("- Annual Fee Range: $" ++ fee.jsToString ++ " *** MANDATORY - All recommended cards MUST fall within this fee range ***")
  else
    pure "- No annual fee preference"

/-- The additional-requirements line (part_002 line 35); empty when the
field is falsy. -/
def additionalReqLineE (filters : JsVal) : Except String String := do
  let ar ← filters.getProp "additionalRequirements"
  if ar.truthy then
    pure ("- Additional Requirements: " ++ ar.jsToString ++ " *** MUST be considered ***")
  else
    pure ""

/-- Part_002 lines 36-42 (the blank lines on either side are this
segment's outer `\n`s together with the joining `"\n"`s). -/
def seg06 : String :=
  "\nFILTER COMPLIANCE RULES:\n1. Card Network filter is ABSOLUTE - no exceptions allowed\n2. Annual Fee filter is MANDATORY - exclude any cards outside this range\n3. Reward Types filter is HIGH PRIORITY - strongly prefer cards matching these types\n4. Additional Requirements must be incorporated into recommendations\n"

/-- The `ocrText ? … : 'No spending data provided.'` block (part_002
lines 43-47). -/
def spendingBlock (ocrText : JsVal) : String :=
  if ocrText.truthy then
    "USER SPENDING PATTERNS (from uploaded statement):\n" ++ ocrText.jsToString ++ "\n\nIMPORTANT: The uploaded document shows the user's SPENDING HABITS and transaction history. Analyze ONLY the spending categories, amounts, and patterns. DO NOT consider which bank issued this statement. You can recommend cards from ANY bank/issuer as long as they match the user's spending patterns and filters.\n"
  else
    "No spending data provided."

/-- Part_002 lines 48-50. -/
def seg08 : String :=
  "\nCRITICAL INSTRUCTIONS:\n1. **MANDATORY CARD NETWORK FILTER**: If \"Required Card Network\" is specified (e.g., VISA, Mastercard, American Express, Discover), you MUST ONLY recommend cards from that exact network. This is NON-NEGOTIABLE. Recommending cards from other networks is STRICTLY FORBIDDEN."

/-- Part_002 lines 51-53. -/
def seg09 : String :=
  "   - Example: If filter = \"VISA\", recommend ONLY VISA cards (from any bank: Chase, Bank of America, Citi, etc.)\n   - Example: If filter = \"Mastercard\", recommend ONLY Mastercard cards (from any bank)\n   - Example: If filter = \"American Express\", recommend ONLY American Express cards"

/-- Part_002 lines 54-55. -/
def seg10 : String :=
  "2. **MANDATORY ANNUAL FEE COMPLIANCE**: All recommended cards MUST have annual fees within the specified range. If range is \"$0-100\", do NOT recommend cards with $150+ annual fees.\n3. **REWARD TYPES PRIORITY**: When \"Desired Reward Types\" are specified (e.g., Flights, Cashback), strongly prioritize cards that offer these reward types. This is a key user preference."

/-- Part_002 lines 56-59. -/
def seg11 : String :=
  "4. Focus on the user's SPENDING PATTERNS from the uploaded statement, NOT the issuing bank\n5. You can recommend cards from ANY bank/issuer, as long as they match ALL the filters\n6. Analyze spending categories (dining, travel, groceries, gas, etc.) to match with appropriate reward structures\n7. Recommend exactly 3 credit cards that best match the spending patterns and filters (ranked by match score)"

/-- Part_002 lines 60-61. -/
def seg12 : String :=
  "8. Provide detailed information including benefits, pros, and sign-up bonus for each card\n9. Ensure recommendations align with the user's spending habits, financial profile, AND all specified filters"

/-- Part_002 line 62. -/
def seg13 : String :=
  "10. **REWARDS CLARITY**: The rewards field MUST clearly specify exact cashback percentages (e.g., \"2% cash back\") or points earning rates (e.g., \"3x points on dining\"). Always include the earning rate per dollar spent for different categories."

/-- Part_002 line 63. -/
def seg14 : String :=
  "11. **CRITICAL**: For sign-up bonus information, you MUST ONLY use data from the retrieved context/knowledge base. DO NOT make up or guess sign-up bonus offers. If no sign-up bonus information is available in the retrieved documents, use \"Information not available\" or \"N/A\". When reading bonus amounts, ignore any crossed-out or old offers - always use the current/highest bonus amount mentioned."

/-- Part_002 lines 64-67. -/
def seg15 : String :=
  "\nIMPORTANT REQUIREMENTS:\n- **STRICT FILTER COMPLIANCE**: Every recommended card MUST satisfy ALL user-specified filters (card network, annual fee range, reward types). Non-compliance is unacceptable.\n- **ANNUAL FEE VERIFICATION**: Double-check that each card's annual fee falls within the specified range before including it in recommendations."

/-- Part_002 lines 68-69. -/
def seg16 : String :=
  "- **REWARD TYPE MATCHING**: When reward types are specified, ensure recommended cards offer strong rewards in those categories.\n- **REWARDS SPECIFICITY**: Rewards must include specific earning rates. Use formats like \"X% cash back\" or \"Xx points per dollar\". Break down by category when applicable (e.g., \"3x points on dining and travel, 1x on everything else\")."

/-- Part_002 line 70. -/
def seg17 : String :=
  "- **SIGN-UP BONUS ACCURACY**: ONLY use sign-up bonus information that appears in the retrieved context/documents. Never fabricate or guess bonus amounts. If the information is not in the retrieved context, set signUpBonus to \"Information not available\". If you see multiple bonus amounts in the context (e.g., old crossed-out offer and new offer), ALWAYS use the HIGHER/CURRENT bonus amount."

/-- Part_002 lines 71-72. -/
def seg18 : String :=
  "- **CARD NETWORK COMPLIANCE**: Strictly follow the \"Required Card Network\" filter. All recommended cards must be from the specified network (VISA/Mastercard/American Express/Discover)\n- **IGNORE STATEMENT ISSUER**: Do not let the bank that issued the uploaded statement influence your recommendations. Focus only on spending patterns."

/-- Part_002 line 73. -/
def seg19 : String :=
  "- **CROSS-BANK RECOMMENDATIONS**: Feel free to recommend cards from different banks (Chase, Citi, Bank of America, Capital One, etc.) as long as they match the card network filter"

/-- Part_002 line 74. -/
def seg20 : String :=
  "- **CRITICAL - IMAGE URL ACCURACY**: You MUST use the EXACT \"Official Image URL\" provided in the retrieved context for each card. The context will explicitly provide \"Official Image URL: https://...\" for each credit card. DO NOT modify, change, or make up image URLs. Copy the exact URL from the context."

/-- Part_002 lines 75-78. -/
def seg21 : String :=
  "- **CRITICAL - APPLICATION LINK**: If an application URL or source URL is provided in the context, use it. Otherwise, construct it based on the card name and issuer.\n- DO NOT use placeholder URLs like \"https://example.com\"\n- Each card should have its own unique image URL from the retrieved context\n- Each card should have its own unique application URL"

/-- Part_002 line 79. -/
def seg22 : String :=
  "- Different banks will have DIFFERENT domain names (e.g., Chase cards use chase.com, Amex cards use americanexpress.com, Citi cards use citi.com, Capital One cards use capitalone.com, etc.)"

/-- Part_002 lines 80-83. -/
def seg23 : String :=
  "\nOUTPUT FORMAT:\nYou must respond with a valid JSON object with the following structure:\n\x7b"

/-- Fixed prefix of the template line interpolating
`summaryInstruction` (part_002 line 84). -/
def summaryJsonPre : String := "  \"summary\": \""

/-- Fixed suffix of that line. -/
def summaryJsonPost : String := "\","

/-- Part_002 lines 85-90. -/
def seg25 : String :=
  "  \"cards\": [\n    \x7b\n      \"id\": 1,\n      \"name\": \"Card Name (MUST match the card name from retrieved context)\",\n      \"bankName\": \"Bank Name (MUST match the issuer from retrieved context)\",\n      \"image\": \"EXACT_IMAGE_URL_FROM_CONTEXT (Copy the 'Official Image URL' from the retrieved context exactly as provided)\","

/-- Part_002 lines 91-92. -/
def seg26 : String :=
  "      \"fee\": \"$XX (MUST be within specified annual fee range AND match the fee mentioned in retrieved context)\",\n      \"cardType\": \"VISA/Mastercard/American Express/Discover (MUST EXACTLY match the Required Card Network filter)\","

/-- Part_002 line 93. -/
def seg27 : String :=
  "      \"signUpBonus\": \"ONLY use sign-up bonus from retrieved context. If not found in context, use 'Information not available'. Example: 'Earn 60,000 bonus points after spending $4,000 in first 3 months' or 'Information not available'\","

/-- Part_002 line 94. -/
def seg28 : String :=
  "      \"rewards\": \"MUST clearly specify the exact cashback percentage or points earned per dollar spent. Include category-specific rates. Should align with user's desired reward types if specified. Example: '2% cash back on all purchases' or '3x points on dining, 2x on travel, 1x on everything else' or '5% cash back on rotating categories'\","

/-- Part_002 lines 95-100. -/
def seg29 : String :=
  "      \"description\": \"Detailed description explaining why this card suits the user's SPENDING HABITS and how it meets their filter criteria\",\n      \"pros\": [\"Benefit 1 related to spending\", \"Benefit 2\", \"Benefit 3\"],\n      \"applyLink\": \"REAL_APPLICATION_URL (Use Source URL from context if available, or construct based on card name and issuer)\"\n    \x7d\n  ]\n\x7d"

/-- Part_002 lines 101-103. -/
def seg30 : String :=
  "\nExample summary:\n\"Based on your high spending on dining and travel, these three VISA cards offer the best rewards in those categories. The Chase Sapphire Preferred leads with 2x points on travel and dining, while the Bank of America Travel Rewards provides no annual fee access to travel perks. The Citi Premier rounds out with bonus points on restaurants and gas stations.\""

/-- Part_002 lines 104-107. -/
def seg31 : String :=
  "\nREWARDS FIELD EXAMPLES (follow these formats):\n- Cash back cards: \"2% cash back on all purchases\" or \"3% cash back on dining, 2% on gas, 1% on everything else\"\n- Points cards: \"3x points on dining and travel, 1x on all other purchases\" or \"5x points on flights booked through airline portals, 2x on restaurants\""

/-- Part_002 lines 108-109. -/
def seg32 : String :=
  "- Category bonus: \"5% cash back on rotating quarterly categories (up to $1,500 per quarter), 1% on everything else\"\n- Tiered rewards: \"3% cash back at U.S. supermarkets (up to $6,000/year), 2% at U.S. gas stations, 1% on other purchases\""

/-- Part_002 lines 110-119. -/
def seg33 : String :=
  "\nExamples showing cross-bank recommendations within the same network:\n- If filter = \"VISA\", you can recommend:\n  * Chase Sapphire Preferred (VISA)\n  * Bank of America Travel Rewards (VISA)\n  * Citi Premier Card (VISA)\n- If filter = \"Mastercard\", you can recommend:\n  * Citi Double Cash (Mastercard)\n  * Capital One Venture (Mastercard)\n  * US Bank Altitude Reserve (Mastercard)"

/-- Part_002 lines 120-123. -/
def seg34 : String :=
  "- If filter = \"American Express\", you can recommend:\n  * American Express Gold Card\n  * American Express Platinum Card\n  * American Express Blue Cash Preferred"

/-- Part_002 lines 124-128. -/
def seg35 : String :=
  "\nExample URLs from different banks:\n- Chase Sapphire Preferred:\n  * image: \"https://creditcards.chase.com/K-Marketplace/images/cardart/sapphire_preferred_card.png\"\n  * applyLink: \"https://creditcards.chase.com/rewards-credit-cards/sapphire/preferred\""

/-- Part_002 lines 129-131. -/
def seg36 : String :=
  "- American Express Gold Card:\n  * image: \"https://icm.aexp-static.com/content/dam/amex/us/credit-cards/features-benefits/policies/Gold-Card.png\"\n  * applyLink: \"https://www.americanexpress.com/us/credit-cards/card/gold-card/\""

/-- Part_002 lines 132-137. -/
def seg37 : String :=
  "- Citi Double Cash:\n  * image: \"https://www.citi.com/CRD/images/citi-double-cash-card/card.png\"\n  * applyLink: \"https://www.citi.com/credit-cards/citi-double-cash-credit-card\"\n- Capital One Venture:\n  * image: \"https://ecm.capitalone.com/WCM/card/products/venture-card-art.png\"\n  * applyLink: \"https://www.capitalone.com/credit-cards/venture/\""

/-- Part_002 lines 138-139. -/
def seg38 : String :=
  "\nCRITICAL: Each recommended card MUST use URLs from its OWN issuing bank's official website. Do not use the same domain for different banks."

/-- Part_002 lines 140-141. -/
def seg39 : String :=
  "\nRespond ONLY with the JSON object containing both \"summary\" and \"cards\" array, no additional text or explanation."

/-- `buildRecommendationPrompt(filters, ocrText)` (part_002 lines
23-144).  `summaryInstruction` is computed first, then the template's
interpolations are evaluated left to right; an exception from any of
them propagates to the caller (the function body has no try/catch). -/
def buildRecommendationPrompt (filters ocrText : JsVal) : Except String String := do
  let summaryInstruction := summaryInstructionOf ocrText
  let cardLine ← cardNetworkLineE filters
  let rewardLine ← rewardTypesLineE filters
  let feeLine ← annualFeeLineE filters
  let addLine ← additionalReqLineE filters
  pure (promptIntro ++ "\n" ++ (cardLine ++ "\n" ++ (rewardLine ++ "\n" ++ (feeLine ++
    "\n" ++ (addLine ++ "\n" ++ (seg06 ++ "\n" ++ (spendingBlock ocrText ++ "\n" ++
    (seg08 ++ "\n" ++ (seg09 ++ "\n" ++ (seg10 ++ "\n" ++ (seg11 ++ "\n" ++ (seg12 ++
    "\n" ++ (seg13 ++ "\n" ++ (seg14 ++ "\n" ++ (seg15 ++ "\n" ++ (seg16 ++ "\n" ++
    (seg17 ++ "\n" ++ (seg18 ++ "\n" ++ (seg19 ++ "\n" ++ (seg20 ++ "\n" ++ (seg21 ++
    "\n" ++ (seg22 ++ "\n" ++ (seg23 ++ "\n" ++ ((summaryJsonPre ++ summaryInstruction ++
    summaryJsonPost) ++ "\n" ++ (seg25 ++ "\n" ++ (seg26 ++ "\n" ++ (seg27 ++ "\n" ++
    (seg28 ++ "\n" ++ (seg29 ++ "\n" ++ (seg30 ++ "\n" ++ (seg31 ++ "\n" ++ (seg32 ++
    "\n" ++ (seg33 ++ "\n" ++ (seg34 ++ "\n" ++ (seg35 ++ "\n" ++ (seg36 ++ "\n" ++
    (seg37 ++ "\n" ++ (seg38 ++ "\n" ++ seg39))))))))))))))))))))))))))))))))))))))

/-! ## The LLM-response parsing block (part_002 lines 356-432)

The block lives inside the outer `try` that also wraps the
`queryLLM` call; the inner `try` (lines 366-422) wraps the two regex
scans and the `JSON.parse` calls. -/

/-- What the parsing block leaves behind: the new format (summary and
cards), the old bare-array format (items only, `summary` stays null),
or a terminal parse failure with the reason written to the job. -/
inductive ParseOutcome where
  | newFormat (summary cards : JsVal)
  | oldFormat (items : JsVal)
  | failure (reason : String)

/-- Reason written when the decoded object has neither the expected
fields nor is an array (part_002 line 391). -/
def unexpectedStructureMsg : String := "LLM response structure is unexpected"

/-- Reason written when no object or array substring is found
(part_002 line 409). -/
def noJsonMsg : String := "LLM response did not contain valid JSON"

/-- Reason written by the inner catch (part_002 line 419). -/
def parseFailMsg : String := "Failed to parse LLM response"

/-- Reason written when the answer field is missing/falsy
(part_002 line 428). -/
def unexpectedFormatMsg : String := "Unexpected LLM response format"

/-- Reason written by the outer catch (part_002 line 437). -/
def llmFailMsg : String := "Failed to query LLM service"

/-- The body of the inner `try` (part_002 lines 366-413), evaluated on
the answer text: object scan, `JSON.parse`, shape tests, array-scan
fallback.  A thrown exception is an `.error`. -/
def parseStageAttempt (answerField : String) : Except String ParseOutcome := do
  match braceSpanMatch answerField with
  | some sub => do
    let parsedResponse ← jsJSONParse sub
    let s ← parsedResponse.getProp "summary"
    if s.truthy then do
      let c ← parsedResponse.getProp "cards"
      if c.truthy then
        pure (.newFormat s c)
      else if parsedResponse.isArr then
        pure (.oldFormat parsedResponse)
      else
        pure (.failure unexpectedStructureMsg)
    else if parsedResponse.isArr then
      pure (.oldFormat parsedResponse)
    else
      pure (.failure unexpectedStructureMsg)
  | none =>
    match bracketSpanMatch answerField with
    | some sub => do
      let items ← jsJSONParse sub
      pure (.oldFormat items)
    | none => pure (.failure noJsonMsg)

/-- The inner `try`/`catch`: any exception becomes the terminal
failure reason of line 419. -/
def parseStage (answerField : String) : ParseOutcome :=
  match parseStageAttempt answerField with
  | .ok o => o
  | .error _ => .failure parseFailMsg

/-! ## Job store values and pipeline -/

/-- The status field of a job-store entry: `'processing'` (the
specification's "pending"), `'completed'` or `'failed'`. -/
inductive JobStatus where
  | processing : JobStatus
  | completed : JobStatus
  | failed : JobStatus
deriving DecidableEq, Repr

/-- A terminal status. -/
def JobStatus.isTerminal : JobStatus → Bool
  | .processing => false
  | .completed => true
  | .failed => true

/-- Metadata of an uploaded PDF, as held in the upload router's
`uploadedFiles` array. -/
structure PdfFileMeta where
  id : String
  originalName : String
  size : Nat
  path : String

/-- The `pdfFile` sub-object of a recommendation record
(part_002 lines 446-454). -/
structure PdfRecordInfo where
  fileId : String
  originalName : String
  size : Nat
  path : String
  extractedText : Option String
  extractionSuccess : Bool
  extractionError : Option String

/-- A recommendation record (part_002 lines 443-459).  `generatedAt`
is the creation timestamp (the `Date` behind the ISO string). -/
structure RecommendationRecord where
  id : Nat
  filters : JsVal
  pdfFile : Option PdfRecordInfo
  summary : JsVal
  recommendations : JsVal
  count : JsVal
  generatedAt : Nat

/-- A value of the `jobs` store.  A field that a given write leaves
out of its object literal is `none` (JS `undefined`). -/
structure JobValue where
  status : JobStatus
  data : Option RecommendationRecord := none
  error : Option String := none
  pdfFile : Option PdfFileMeta := none

/-- The creation write `jobs[jobId] = \x7b status: 'processing', data:
null, pdfFile \x7d` (part_002 line 299). -/
def createJobWrite (pdfFile : Option PdfFileMeta) : JobValue :=
  { status := .processing, data := none, error := none, pdfFile := pdfFile }

/-- Outcomes of the external calls made on behalf of one extraction:
`fs.readFileSync` and the `pdf-parse` promise (`.error` = threw /
rejected; the `.ok` of `pdfParseText` is the resolved `.text`). -/
structure ExtractEnv where
  readResult : Except String Unit
  pdfParseText : Except String String

/-- `extractTextFromPDF` (part_002 lines 206-244): every failure path
is caught inside the function and becomes `null`; empty or
whitespace-only text also becomes `null`. -/
def extractTextFromPDF (env : ExtractEnv) : Option String :=
  match env.readResult with
  | .error _ => none
  | .ok _ =>
    match env.pdfParseText with
    | .error _ => none
    | .ok extractedText =>
      if extractedText.trim.length = 0 then none else some extractedText

/-- The extraction-error message recorded when extraction yields no
text (part_002 line 329). -/
def pdfCouldNotBeProcessedMsg : String :=
  "PDF file could not be processed. The file may be corrupted, password-protected, or in an unsupported format. Recommendations will be based only on your filter preferences."

/-- The extraction block of the background task (part_002 lines
309-338): produces `(pdfText, pdfExtractionError)`.  The call-site
`catch` (lines 331-335) is unreachable because `extractTextFromPDF`
catches internally, so this step never throws. -/
def extractionStep (pdfFile : Option PdfFileMeta) (env : ExtractEnv) :
    Option String × Option String :=
  match pdfFile with
  | none => (none, none)
  | some _ =>
    match extractTextFromPDF env with
    | some t => (some t, none)
    | none => (none, some pdfCouldNotBeProcessedMsg)

/-- The `ocrText` argument passed to the prompt builder: the extracted
text, or the `null` the variable `pdfText` was initialised with. -/
def ocrArgOf (pdfText : Option String) : JsVal :=
  match pdfText with
  | some t => .str t
  | none => .null

/-- Outcomes of the external calls of one background run. -/
structure PipelineEnv where
  extract : ExtractEnv
  /-- `await queryLLM(prompt)`: the `response.data` value, or `.error`
  when axios threw (timeout, network, non-2xx; `queryLLM` logs and
  rethrows). -/
  llm : Except String JsVal

/-- The outer `try` region around the LLM call and the parsing block
(part_002 lines 353-440).  `.inl` is a terminal failure write already
decided inside the region; `.inr (summary, recommendations)` continues
to record construction.  The `answerField.substring(0, 500)` console
argument (line 364) throws when the answer field is truthy but not a
string; like any other exception in the region it is absorbed by the
outer catch (line 433). -/
def runLLMRegion (llm : Except String JsVal) : Sum JobValue (JsVal × JsVal) :=
  let attempt : Except String (Sum JobValue (JsVal × JsVal)) := do
    let llmResponse ← llm
    let r ← llmResponse.getProp "response"
    let answerField ← if r.truthy then pure r else llmResponse.getProp "answer"
    if llmResponse.truthy && answerField.truthy then
      match answerField with
      | .str s =>
        match parseStage s with
        | .newFormat summ cards => pure (.inr (summ, cards))
        | .oldFormat items => pure (.inr (.null, items))
        | .failure msg => pure (.inl { status := .failed, error := some msg })
      | _ => .error "TypeError: answerField.substring is not a function"
    else
      pure (.inl { status := .failed, error := some unexpectedFormatMsg })
  match attempt with
  | .ok out => out
  | .error _ => .inl { status := .failed, error := some llmFailMsg }

/-- The background IIFE of POST /generate (part_002 lines 308-471),
given the job's inputs, the outcomes of its external calls, the value
`recommendationIdCounter` would hand out and the current time.  The
result is the single terminal value written to `jobs[jobId]`, or
`.error` when an exception escapes the IIFE (an unhandled promise
rejection: no write happens and the job stays `'processing'`). -/
def backgroundTask (filters : JsVal) (pdfFile : Option PdfFileMeta)
    (env : PipelineEnv) (nextId : Nat) (now : Nat) : Except String JobValue := do
  let (pdfText, pdfExtractionError) := extractionStep pdfFile env.extract
  let _prompt ← buildRecommendationPrompt filters (ocrArgOf pdfText)
  match runLLMRegion env.llm with
  | .inl failedJob => pure failedJob
  | .inr (summary, recommendations) => do
    let count ← recommendations.getProp "length"
    pure { status := .completed
           data := some {
             id := nextId
             filters := filters
             pdfFile := pdfFile.map (fun f =>
               { fileId := f.id
                 originalName := f.originalName
                 size := f.size
                 path := f.path
                 extractedText := pdfText.map (fun t => t.take 500 ++ "...")
                 extractionSuccess := pdfText.isSome
                 extractionError := pdfExtractionError })
             summary := summary
             recommendations := recommendations
             count := count
             generatedAt := now } }

/-- The sequence of values written to `jobs[jobId]` over one job's
lifetime: the creation write, then the background task's terminal
write if its promise did not reject. -/
def jobWrites (filters : JsVal) (pdfFile : Option PdfFileMeta)
    (env : PipelineEnv) (nextId : Nat) (now : Nat) : List JobValue :=
  createJobWrite pdfFile ::
    (match backgroundTask filters pdfFile env nextId now with
     | .ok j => [j]
     | .error _ => [])

/-- The in-memory job store (`jobs`), keyed by job id. -/
abbrev JobStore := List (String × JobValue)

/-- The body of a GET /status/:jobId response (part_002 lines
486-510). -/
structure StatusResponse where
  httpStatus : Nat
  status : String
  error : Option String := none
  data : Option RecommendationRecord := none

/-- GET /status/:jobId (part_002 lines 486-510).  Note the failed
branch answers with the fixed string `'Job failed'`, not with the
job's recorded `error` field. -/
def statusEndpoint (jobs : JobStore) (jobId : String) : StatusResponse :=
  match jobs.lookup jobId with
  | none => { httpStatus := 404, status := "failed", error := some "Job not found" }
  | some job =>
    if job.status = .completed then
      { httpStatus := 200, status := "completed", data := job.data }
    else if job.status = .processing then
      { httpStatus := 200, status := "processing" }
    else
      { httpStatus := 500, status := "failed", error := some "Job failed" }

/-! ## GET /history (part_002 lines 519-537) -/

/-- The in-place `history.sort((a, b) => new Date(b.generatedAt) - new
Date(a.generatedAt))`: sorts by creation time, newest first. -/
def sortHistoryDesc (history : List RecommendationRecord) : List RecommendationRecord :=
  history.mergeSort (fun a b => b.generatedAt ≤ a.generatedAt)

/-- The body of a GET /history response. -/
structure HistoryResponse where
  history : List RecommendationRecord
  count : Nat
  total : Nat

/-- GET /history.  `limitParam` is the `parseInt` value of the `limit`
query parameter, `none` when it is absent (then the destructuring
default 50 applies).  Because `let history = recommendationHistory`
merely aliases the shared array and `Array.prototype.sort` mutates its
receiver, the handler returns both the response and the post-request
state of the shared `recommendationHistory` array. -/
def historyEndpoint (recommendationHistory : List RecommendationRecord)
    (limitParam : Option Nat) : HistoryResponse × List RecommendationRecord :=
  let limit := limitParam.getD 50
  let sorted := sortHistoryDesc recommendationHistory
  let results := sorted.take limit
  ({ history := results, count := results.length, total := recommendationHistory.length },
    sorted)


/-! ## The Response Parser algorithm in the specification's words

A second rendering of the parsing algorithm, written from the
specification's description rather than from the code, to be compared
with `parseStage`: "attempt to locate and decode the first balanced
top-level object substring in the text (a greedy brace-delimited scan
from the first `\x7b` to the last `\x7d`) as the primary format,
expecting an object with a narrative field and an item-sequence field;
if that fails or the decoded shape lacks both expected fields but is
itself a sequence, accept it as a legacy bare-array format …  If
neither succeeds, return a parse failure carrying a human-readable
reason (no structured data found; malformed structured data)."
Per the amendment of C2, "has a narrative field and an item-sequence
field" is read as the fields being present with truthy values. -/

/-- The brace-delimited substring from the first `\x7b` to the last
`\x7d` of the text, as the specification words it. -/
def specObjectSubstring (answerText : String) : Option String :=
  match firstIdxOf lbraceChar answerText.data, lastIdxOf rbraceChar answerText.data with
  | some i, some j =>
    if i < j then some (String.mk ((answerText.data.drop i).take (j - i + 1)))
    else none
  | _, _ => none

/-- The bracket-delimited substring from the first `[` to the last
`]`. -/
def specBracketSubstring (answerText : String) : Option String :=
  match firstIdxOf lbrackChar answerText.data, lastIdxOf rbrackChar answerText.data with
  | some i, some j =>
    if i < j then some (String.mk ((answerText.data.drop i).take (j - i + 1)))
    else none
  | _, _ => none

/-- The parser algorithm as the specification describes it. -/
def specResponseParser (answerText : String) : ParseOutcome :=
  match specObjectSubstring answerText with
  | some sub =>
    match jsJSONParse sub with
    | .ok decoded =>
      if (decoded.propD "summary").truthy && (decoded.propD "cards").truthy then
        .newFormat (decoded.propD "summary") (decoded.propD "cards")
      else if decoded.isArr then .oldFormat decoded
      else .failure "malformed structured data"
    | .error _ => .failure "malformed structured data"
  | none =>
    match specBracketSubstring answerText with
    | some sub =>
      match jsJSONParse sub with
      | .ok decoded =>
        if decoded.isArr then .oldFormat decoded
        else .failure "no structured data found"
      | .error _ => .failure "malformed structured data"
    | none => .failure "no structured data found"

/-- Agreement of two parse outcomes: same format with the same
payload; failure reasons must each be nonempty (their wording is not
prescribed). -/
def parseOutcomesAgree : ParseOutcome → ParseOutcome → Prop
  | .newFormat s c, .newFormat s' c' => s = s' ∧ c = c'
  | .oldFormat i, .oldFormat i' => i = i'
  | .failure r, .failure r' => r ≠ "" ∧ r' ≠ ""
  | _, _ => False

/-! ## Derived notions and concrete inputs used by the claims -/

/-- The store-consistency invariant of claim C9: result present iff
completed, error present iff failed. -/
def jobInvariant (j : JobValue) : Prop :=
  (j.data.isSome = true ↔ j.status = .completed) ∧
    (j.error.isSome = true ↔ j.status = .failed)

/-- A cardTypes/rewardTypes value is join-safe when the card-network
branch either sees an array (so `join` exists) or does not reach the
`join` call. -/
def joinSafe (v : JsVal) : Bool :=
  match v with
  | .arr _ => true
  | _ => !(v.truthy && (v.propD "length").gtZero)

/-- The contradictory line of claim C6. -/
def noRestrictionPhrase : String := "No card network restriction"

/-- A pipeline environment whose external calls all succeed and whose
LLM reply carries a bare-array answer (used by witnesses). -/
def envLLMArray : PipelineEnv :=
  { extract := { readResult := .ok (), pdfParseText := .ok "statement text" }
    llm := .ok (.obj [("response", .str "[1, 2, 3]")]) }

/-- A pipeline environment whose LLM call fails (axios throw). -/
def envLLMDown : PipelineEnv :=
  { extract := { readResult := .ok (), pdfParseText := .ok "statement text" }
    llm := .error "connect ECONNREFUSED 127.0.0.1:5002" }

/-- A filters value whose `cardTypes` is a non-array truthy value with
a positive `length` (`\x7b "cardTypes": "VISA" \x7d`): the card-network
branch is taken and `.join` throws. -/
def filtersStringCardTypes : JsVal := .obj [("cardTypes", .str "VISA")]

/-- A filters value whose `rewardTypes` is such a value. -/
def filtersStringRewardTypes : JsVal := .obj [("rewardTypes", .str "Cashback")]

/-- A filters value whose `cardTypes` is an object with a numeric
`length` field and no `join` method. -/
def filtersLengthObject : JsVal := .obj [("cardTypes", .obj [("length", .num 1)])]

/-- A filters value whose `cardTypes` list injects the contradictory
line's text into the prompt. -/
def filtersInjection : JsVal := .obj [("cardTypes", .arr [.str "No card network restriction"])]

/-- An answer text that is exactly a primary-format object whose
`summary` is present but empty: `\x7b"summary": "", "cards": []\x7d`. -/
def emptySummaryAnswer : String := "\x7b\"summary\": \"\", \"cards\": []\x7d"

/-! ## String containment -/

/-! ## Substring infrastructure

Substring tests over `String`s, with the decomposition lemmas used by
the prompt-content claims. -/

/-- `s` contains `pat` as a contiguous substring. -/
def strIncludes (s pat : String) : Prop := pat.data <:+: s.data

instance (s pat : String) : Decidable (strIncludes s pat) := by
  unfold strIncludes
  exact List.decidableInfix _ _

/-! ## Auxiliary concrete values -/

def stripPdf (j : JobValue) : JobValue :=
  { j with data := j.data.map (fun r => { r with pdfFile := none }) }

def envPdfBroken : PipelineEnv :=
  { extract := { readResult := .ok (), pdfParseText := .error "bad XRef entry" }
    llm := .ok (.obj [("response", .str "[1, 2, 3]")]) }

def pdfMetaSample : PdfFileMeta :=
  { id := "file-1", originalName := "statement.pdf", size := 1000, path := "/tmp/statement.pdf" }

def demoRecord (n : Nat) (ts : Nat) : RecommendationRecord :=
  { id := n, filters := .obj [], pdfFile := none, summary := .null
    recommendations := .arr [], count := .num 0, generatedAt := ts }

/-! ## Theorems -/
theorem infix_append_split {x a b : List Char} (h : x <:+: a ++ b) :
    x <:+: a ∨ x <:+: b ∨
      ∃ k, 0 < k ∧ k < x.length ∧ x.take k <:+ a ∧ x.drop k <+: b := by
  obtain ⟨p, s, hps⟩ := h
  rcases le_or_lt (p.length + x.length) a.length with hle | hgt
  · left
    have h1 : List.take a.length (p ++ (x ++ s)) = a := by
      have := List.take_left a b
      rw [← List.append_assoc, hps]; exact this
    rw [List.take_append_eq_append_take, List.take_of_length_le (by omega),
      List.take_append_eq_append_take, List.take_of_length_le (by omega)] at h1
    exact ⟨p, _, by rw [List.append_assoc]; exact h1⟩
  · rcases le_or_lt a.length p.length with hle' | hgt'
    · right; left
      have h1 : List.drop a.length (p ++ (x ++ s)) = b := by
        have := List.drop_left a b
        rw [← List.append_assoc, hps]; exact this
      rw [List.drop_append_eq_append_drop,
        show a.length - p.length = 0 by omega, List.drop_zero] at h1
      exact ⟨_, s, by rw [List.append_assoc]; exact h1⟩
    · right; right
      refine ⟨a.length - p.length, by omega, by omega, ?_, ?_⟩
      · have h1 : List.take a.length (p ++ (x ++ s)) = a := by
          have := List.take_left a b
          rw [← List.append_assoc, hps]; exact this
        rw [List.take_append_eq_append_take, List.take_of_length_le (by omega),
          List.take_append_eq_append_take,
          show List.take (a.length - p.length - x.length) s = [] by
            rw [show a.length - p.length - x.length = 0 by omega]; rfl,
          List.append_nil] at h1
        exact ⟨p, h1⟩
      · have h1 : List.drop a.length (p ++ (x ++ s)) = b := by
          have := List.drop_left a b
          rw [← List.append_assoc, hps]; exact this
        rw [List.drop_append_eq_append_drop, List.drop_eq_nil_of_le (by omega),
          List.nil_append, List.drop_append_eq_append_drop,
          show List.drop (a.length - p.length - x.length) s = s by
            rw [show a.length - p.length - x.length = 0 by omega]; rfl] at h1
        exact ⟨s, h1⟩

theorem not_infix_append_of_crossFree {x a b : List Char}
    (ha : ¬ x <:+: a) (hb : ¬ x <:+: b)
    (hcross : ∀ k, k < x.length → 0 < k → ¬ x.take k <:+ a ∨ ¬ x.drop k <+: b) :
    ¬ x <:+: a ++ b := by
  intro h
  rcases infix_append_split h with h' | h' | ⟨k, hk0, hkl, ht, hd⟩
  · exact ha h'
  · exact hb h'
  · rcases hcross k hkl hk0 with hc | hc
    · exact hc ht
    · exact hc hd

theorem not_infix_append_cons {x a b : List Char} {c : Char} (hc : c ∉ x)
    (ha : ¬ x <:+: a) (hb : ¬ x <:+: b) : ¬ x <:+: a ++ c :: b := by
  intro h
  rcases infix_append_split h with h' | h' | ⟨k, hk0, hkl, _, hd⟩
  · exact ha h'
  · rcases List.infix_cons_iff.mp h' with hp | hi
    · cases x with
      | nil => exact ha List.nil_infix
      | cons y ys =>
        obtain ⟨t, ht⟩ := hp
        rw [List.cons_append] at ht
        exact hc (by rw [(List.cons.injEq _ _ _ _).mp ht |>.1]; exact List.mem_cons_self _ _)
    · exact hb hi
  · have hne : x.drop k ≠ [] := by
      intro hnil
      rw [List.drop_eq_nil_iff] at hnil
      omega
    obtain ⟨z, zs, hzs⟩ := List.exists_cons_of_ne_nil hne
    obtain ⟨t, ht⟩ := hd
    rw [hzs, List.cons_append] at ht
    have hzc : z = c := ((List.cons.injEq _ _ _ _).mp ht).1
    exact hc (List.drop_subset k x (by rw [hzs, hzc]; exact List.mem_cons_self _ _))

theorem not_includes_append_nl {a b pat : String} (hnl : '\n' ∉ pat.data)
    (ha : ¬ (pat.data <:+: a.data)) (hb : ¬ (pat.data <:+: b.data)) :
    ¬ (pat.data <:+: (a ++ "\n" ++ b).data) := by
  have hdata : (a ++ "\n" ++ b).data = a.data ++ '\n' :: b.data := by
    rw [String.data_append, String.data_append]
    simp
  rw [hdata]
  exact not_infix_append_cons hnl ha hb

/-! # Theorems -/

theorem JsVal.getProp_eq_propD {v : JsVal} (k : String)
    (h : v ≠ .null) (h' : v ≠ .undef) : v.getProp k = .ok (v.propD k) := by
  cases v <;> simp_all [JsVal.getProp, JsVal.propD]

theorem JsVal.getProp_ok_of_truthy {v : JsVal} (k : String)
    (h : v.truthy = true) : v.getProp k = .ok (v.propD k) := by
  cases v <;> simp_all [JsVal.truthy, JsVal.getProp, JsVal.propD]

theorem JsVal.joinSep_arr (xs : List JsVal) :
    JsVal.joinSep (.arr xs) ", " = .ok (joinedLabels xs) := rfl

theorem firstIdxOf_getElem {c : Char} : ∀ {l : List Char} {i : Nat},
    firstIdxOf c l = some i → l[i]? = some c := by
  intro l
  induction l with
  | nil => intro i h; simp [firstIdxOf] at h
  | cons d rest ih =>
    intro i h
    by_cases hd : d = c
    · simp [firstIdxOf, hd] at h
      subst h; simp [hd]
    · simp [firstIdxOf, hd] at h
      obtain ⟨i', hi', rfl⟩ := h
      simpa using ih hi'

theorem greedySpanMatch_head {copen cclose : Char} {s : String} {sub : String}
    (h : greedySpanMatch copen cclose s = some sub) :
    sub.data.head? = some copen := by
  unfold greedySpanMatch at h
  rcases hf : firstIdxOf copen s.data with _ | i <;> rw [hf] at h
  · simp at h
  rcases hl : lastIdxOf cclose s.data with _ | j <;> rw [hl] at h
  · simp at h
  dsimp only at h
  by_cases hij : i < j
  · rw [if_pos hij] at h
    obtain rfl : String.mk ((s.data.drop i).take (j - i + 1)) = sub := by
      simpa using h
    have hget : s.data[i]? = some copen := firstIdxOf_getElem hf
    have hdrop : (s.data.drop i).head? = some copen := by
      rw [List.head?_drop]; exact hget
    obtain ⟨z, zs, hz⟩ : ∃ z zs, s.data.drop i = z :: zs := by
      rcases hd : s.data.drop i with _ | ⟨z, zs⟩
      · rw [hd] at hdrop; simp at hdrop
      · exact ⟨z, zs, rfl⟩
    rw [hz] at hdrop
    simp at hdrop
    show ((s.data.drop i).take (j - i + 1)).head? = some copen
    rw [hz, show j - i + 1 = (j - i) + 1 from rfl, List.take_cons]
    · simp [hdrop]
    · omega
  · rw [if_neg hij] at h; simp at h

theorem jsonSkipWs_cons_lbrace (r : List Char) :
    jsonSkipWs (lbraceChar :: r) = lbraceChar :: r := by
  rw [jsonSkipWs, if_neg (by decide)]

theorem jsonSkipWs_cons_lbrack (r : List Char) :
    jsonSkipWs (lbrackChar :: r) = lbrackChar :: r := by
  rw [jsonSkipWs, if_neg (by decide)]

theorem parseJsonVal_obj_of_lbrace {fuel : Nat} {l rest : List Char} {v : JsVal}
    (hhead : (jsonSkipWs l).head? = some lbraceChar)
    (h : parseJsonVal fuel l = some (v, rest)) : ∃ fs, v = .obj fs := by
  match fuel with
  | 0 => simp [parseJsonVal] at h
  | fuel + 1 =>
    rw [parseJsonVal] at h
    obtain ⟨r, hr⟩ : ∃ r, jsonSkipWs l = lbraceChar :: r := by
      rcases hskip : jsonSkipWs l with _ | ⟨c, r⟩
      · rw [hskip] at hhead; simp at hhead
      · rw [hskip] at hhead; simp at hhead; exact ⟨r, by rw [hhead]⟩
    rw [hr] at h
    dsimp only at h
    rw [if_pos rfl] at h
    rcases h2 : jsonSkipWs r with _ | ⟨c2, rest2⟩ <;> rw [h2] at h
    · simp at h
    · dsimp only at h
      by_cases hc2 : c2 = rbraceChar
      · rw [if_pos hc2] at h
        simp at h
        exact ⟨[], h.1.symm⟩
      · rw [if_neg hc2] at h
        rcases h3 : parseJsonFields fuel (c2 :: rest2) with _ | ⟨fs, rest3⟩ <;> rw [h3] at h
        · simp at h
        · simp at h
          exact ⟨fs, h.1.symm⟩

theorem parseJsonVal_arr_of_lbrack {fuel : Nat} {l rest : List Char} {v : JsVal}
    (hhead : (jsonSkipWs l).head? = some lbrackChar)
    (h : parseJsonVal fuel l = some (v, rest)) : v.isArr = true := by
  match fuel with
  | 0 => simp [parseJsonVal] at h
  | fuel + 1 =>
    rw [parseJsonVal] at h
    obtain ⟨r, hr⟩ : ∃ r, jsonSkipWs l = lbrackChar :: r := by
      rcases hskip : jsonSkipWs l with _ | ⟨c, r⟩
      · rw [hskip] at hhead; simp at hhead
      · rw [hskip] at hhead; simp at hhead; exact ⟨r, by rw [hhead]⟩
    rw [hr] at h
    dsimp only at h
    rw [if_neg (by decide), if_pos rfl] at h
    rcases h2 : jsonSkipWs r with _ | ⟨c2, rest2⟩ <;> rw [h2] at h
    · simp at h
    · dsimp only at h
      by_cases hc2 : c2 = rbrackChar
      · rw [if_pos hc2] at h
        simp at h
        rw [← h.1]; rfl
      · rw [if_neg hc2] at h
        rcases h3 : parseJsonElems fuel (c2 :: rest2) with _ | ⟨xs, rest3⟩ <;> rw [h3] at h
        · simp at h
        · simp at h
          rw [← h.1]; rfl

theorem jsJSONParse_obj_of_head_lbrace {s : String} {v : JsVal}
    (hhead : s.data.head? = some lbraceChar)
    (h : jsJSONParse s = .ok v) : ∃ fs, v = .obj fs := by
  unfold jsJSONParse at h
  rcases hp : parseJsonVal (2 * s.length + 2) s.data with _ | ⟨v', rest⟩ <;> rw [hp] at h
  · simp at h
  · dsimp only at h
    rcases hw : jsonSkipWs rest with _ | _ <;> rw [hw] at h
    · obtain rfl : v' = v := by simpa using h
      refine parseJsonVal_obj_of_lbrace ?_ hp
      obtain ⟨r, hr⟩ : ∃ r, s.data = lbraceChar :: r := by
        rcases hd : s.data with _ | ⟨c, r⟩
        · rw [hd] at hhead; simp at hhead
        · rw [hd] at hhead; simp at hhead; exact ⟨r, by rw [hhead]⟩
      rw [hr, jsonSkipWs_cons_lbrace]
      rfl
    · simp at h

theorem jsJSONParse_arr_of_head_lbrack {s : String} {v : JsVal}
    (hhead : s.data.head? = some lbrackChar)
    (h : jsJSONParse s = .ok v) : v.isArr = true := by
  unfold jsJSONParse at h
  rcases hp : parseJsonVal (2 * s.length + 2) s.data with _ | ⟨v', rest⟩ <;> rw [hp] at h
  · simp at h
  · dsimp only at h
    rcases hw : jsonSkipWs rest with _ | _ <;> rw [hw] at h
    · obtain rfl : v' = v := by simpa using h
      refine parseJsonVal_arr_of_lbrack ?_ hp
      obtain ⟨r, hr⟩ : ∃ r, s.data = lbrackChar :: r := by
        rcases hd : s.data with _ | ⟨c, r⟩
        · rw [hd] at hhead; simp at hhead
        · rw [hd] at hhead; simp at hhead; exact ⟨r, by rw [hhead]⟩
      rw [hr, jsonSkipWs_cons_lbrack]
      rfl
    · simp at h

theorem parseStage_oldFormat_isArr {t : String} {items : JsVal}
    (h : parseStage t = .oldFormat items) : items.isArr = true := by
  unfold parseStage parseStageAttempt at h
  rcases hb : braceSpanMatch t with _ | sub <;> rw [hb] at h
  · rcases hk : bracketSpanMatch t with _ | sub <;> rw [hk] at h
    · simp [pure, Except.pure] at h
    · dsimp only at h
      cases hj : jsJSONParse sub with
      | error e => rw [hj] at h; simp only [bind, Except.bind] at h; simp at h
      | ok v =>
        rw [hj] at h
        simp only [bind, Except.bind, pure, Except.pure] at h; simp at h
        subst h
        exact jsJSONParse_arr_of_head_lbrack (greedySpanMatch_head hk) hj
  · dsimp only at h
    cases hj : jsJSONParse sub with
    | error e => rw [hj] at h; simp only [bind, Except.bind] at h; simp at h
    | ok parsed =>
      rw [hj] at h
      simp only [bind, Except.bind] at h
      cases hs : parsed.getProp "summary" with
      | error e => rw [hs] at h; simp at h
      | ok sv =>
        rw [hs] at h
        simp only [bind, Except.bind] at h
        by_cases hst : sv.truthy
        · rw [if_pos hst] at h
          cases hc : parsed.getProp "cards" with
          | error e => rw [hc] at h; simp at h
          | ok cv =>
            rw [hc] at h
            simp only [bind, Except.bind] at h
            by_cases hct : cv.truthy
            · rw [if_pos hct] at h; simp [pure, Except.pure] at h
            · rw [if_neg hct] at h
              by_cases hia : parsed.isArr
              · rw [if_pos hia] at h
                simp [pure, Except.pure] at h
                rw [← h]; exact hia
              · rw [if_neg hia] at h; simp [pure, Except.pure] at h
        · rw [if_neg hst] at h
          by_cases hia : parsed.isArr
          · rw [if_pos hia] at h
            simp [pure, Except.pure] at h
            rw [← h]; exact hia
          · rw [if_neg hia] at h; simp [pure, Except.pure] at h

/-- Claim C2 (amended): for every answer text, the parsing block follows the spec's algorithm once 'has both fields' is read as 'both fields hold truthy values': greedy brace-delimited scan first, bare-array and bracket-scan fallback, and on failure a non-empty human-readable reason instead of a thrown exception. -/
theorem C2thm (t : String) :
    parseOutcomesAgree (parseStage t) (specResponseParser t) := by
  have hob : specObjectSubstring t = braceSpanMatch t := rfl
  have hbk : specBracketSubstring t = bracketSpanMatch t := rfl
  unfold parseStage parseStageAttempt specResponseParser
  rw [hob, hbk]
  rcases hb : braceSpanMatch t with _ | sub
  · dsimp only
    rcases hk : bracketSpanMatch t with _ | sub
    · simp only [pure, Except.pure]
      exact ⟨by decide, by decide⟩
    · dsimp only
      cases hj : jsJSONParse sub with
      | error e =>
        simp only [bind, Except.bind]
        exact ⟨by decide, by decide⟩
      | ok v =>
        have hia : v.isArr = true := jsJSONParse_arr_of_head_lbrack (greedySpanMatch_head hk) hj
        simp only [bind, Except.bind, pure, Except.pure, hia, if_pos]
        rfl
  · dsimp only
    cases hj : jsJSONParse sub with
    | error e =>
      simp only [bind, Except.bind]
      exact ⟨by decide, by decide⟩
    | ok parsed =>
      obtain ⟨fs, rfl⟩ := jsJSONParse_obj_of_head_lbrace (greedySpanMatch_head hb) hj
      have hgs : (JsVal.obj fs).getProp "summary" = .ok ((JsVal.obj fs).propD "summary") :=
        JsVal.getProp_eq_propD _ (by simp) (by simp)
      have hgc : (JsVal.obj fs).getProp "cards" = .ok ((JsVal.obj fs).propD "cards") :=
        JsVal.getProp_eq_propD _ (by simp) (by simp)
      have hia : (JsVal.obj fs).isArr = false := rfl
      simp only [bind, Except.bind]
      rw [hgs]
      simp only [bind, Except.bind]
      by_cases hst : ((JsVal.obj fs).propD "summary").truthy
      · rw [if_pos hst, hgc]
        simp only [bind, Except.bind]
        by_cases hct : ((JsVal.obj fs).propD "cards").truthy
        · rw [if_pos hct]
          simp only [hst, hct, Bool.and_self, if_pos, pure, Except.pure]
          exact ⟨rfl, rfl⟩
        · rw [if_neg hct, if_neg (by simp [hia]), if_neg (by simp [hct]), if_neg (by simp [hia])]
          simp only [pure, Except.pure]
          exact ⟨by decide, by decide⟩
      · rw [if_neg hst, if_neg (by simp [hia]), if_neg (by simp [hst]), if_neg (by simp [hia])]
        simp only [pure, Except.pure]
        exact ⟨by decide, by decide⟩

theorem parseStage_newFormat_truthy {t : String} {s c : JsVal}
    (h : parseStage t = .newFormat s c) : s.truthy = true ∧ c.truthy = true := by
  unfold parseStage parseStageAttempt at h
  rcases hb : braceSpanMatch t with _ | sub <;> rw [hb] at h
  · rcases hk : bracketSpanMatch t with _ | sub <;> rw [hk] at h
    · simp [pure, Except.pure] at h
    · dsimp only at h
      cases hj : jsJSONParse sub with
      | error e => rw [hj] at h; simp only [bind, Except.bind] at h; simp at h
      | ok v =>
        rw [hj] at h
        simp only [bind, Except.bind, pure, Except.pure] at h; simp at h
  · dsimp only at h
    cases hj : jsJSONParse sub with
    | error e => rw [hj] at h; simp only [bind, Except.bind] at h; simp at h
    | ok parsed =>
      rw [hj] at h
      simp only [bind, Except.bind] at h
      cases hs : parsed.getProp "summary" with
      | error e => rw [hs] at h; simp at h
      | ok sv =>
        rw [hs] at h
        simp only [bind, Except.bind] at h
        by_cases hst : sv.truthy
        · rw [if_pos hst] at h
          cases hc : parsed.getProp "cards" with
          | error e => rw [hc] at h; simp at h
          | ok cv =>
            rw [hc] at h
            simp only [bind, Except.bind] at h
            by_cases hct : cv.truthy
            · rw [if_pos hct] at h
              simp [pure, Except.pure] at h
              exact ⟨by rw [← h.1]; exact hst, by rw [← h.2]; exact hct⟩
            · rw [if_neg hct] at h
              by_cases hia : parsed.isArr
              · rw [if_pos hia] at h; simp [pure, Except.pure] at h
              · rw [if_neg hia] at h; simp [pure, Except.pure] at h
        · rw [if_neg hst] at h
          by_cases hia : parsed.isArr
          · rw [if_pos hia] at h; simp [pure, Except.pure] at h
          · rw [if_neg hia] at h; simp [pure, Except.pure] at h

theorem JsVal.truthy_of_isArr {v : JsVal} (h : v.isArr = true) : v.truthy = true := by
  cases v <;> simp_all [JsVal.isArr, JsVal.truthy]

theorem runLLMRegion_cases (llm : Except String JsVal) :
    (∃ e, runLLMRegion llm =
        .inl { status := .failed, data := none, error := some e, pdfFile := none }) ∨
    (∃ s c, runLLMRegion llm = .inr (s, c) ∧ c.truthy = true) := by
  unfold runLLMRegion
  rcases llm with e | resp
  · left; exact ⟨llmFailMsg, rfl⟩
  · simp only [bind, Except.bind]
    cases hr : resp.getProp "response" with
    | error e => left; exact ⟨llmFailMsg, rfl⟩
    | ok r =>
      try dsimp only
      by_cases hrt : r.truthy
      · rw [if_pos hrt]
        simp only [pure, Except.pure]
        try dsimp only
        by_cases hcond : (resp.truthy && r.truthy) = true
        · rw [if_pos hcond]
          cases r with
          | str str1 =>
            dsimp only
            cases hp : parseStage str1 with
            | newFormat summ cards =>
              right
              exact ⟨summ, cards, rfl, (parseStage_newFormat_truthy hp).2⟩
            | oldFormat items =>
              right
              exact ⟨.null, items, rfl, JsVal.truthy_of_isArr (parseStage_oldFormat_isArr hp)⟩
            | failure msg => left; exact ⟨msg, rfl⟩
          | null => left; exact ⟨llmFailMsg, rfl⟩
          | undef => left; exact ⟨llmFailMsg, rfl⟩
          | bool b => left; exact ⟨llmFailMsg, rfl⟩
          | num n => left; exact ⟨llmFailMsg, rfl⟩
          | arr xs => left; exact ⟨llmFailMsg, rfl⟩
          | obj fs => left; exact ⟨llmFailMsg, rfl⟩
        · rw [if_neg hcond]; left; exact ⟨unexpectedFormatMsg, rfl⟩
      · rw [if_neg hrt]
        cases ha : resp.getProp "answer" with
        | error e => left; exact ⟨llmFailMsg, rfl⟩
        | ok a =>
          try dsimp only
          by_cases hcond : (resp.truthy && a.truthy) = true
          · rw [if_pos hcond]
            cases a with
            | str str1 =>
              dsimp only
              cases hp : parseStage str1 with
              | newFormat summ cards =>
                right
                exact ⟨summ, cards, rfl, (parseStage_newFormat_truthy hp).2⟩
              | oldFormat items =>
                right
                exact ⟨.null, items, rfl, JsVal.truthy_of_isArr (parseStage_oldFormat_isArr hp)⟩
              | failure msg => left; exact ⟨msg, rfl⟩
            | null => left; exact ⟨llmFailMsg, rfl⟩
            | undef => left; exact ⟨llmFailMsg, rfl⟩
            | bool b => left; exact ⟨llmFailMsg, rfl⟩
            | num n => left; exact ⟨llmFailMsg, rfl⟩
            | arr xs => left; exact ⟨llmFailMsg, rfl⟩
            | obj fs => left; exact ⟨llmFailMsg, rfl⟩
          · rw [if_neg hcond]; left; exact ⟨unexpectedFormatMsg, rfl⟩

theorem backgroundTask_ok_shape {filters : JsVal} {pdfFile : Option PdfFileMeta}
    {env : PipelineEnv} {nextId now : Nat} {j : JobValue}
    (h : backgroundTask filters pdfFile env nextId now = .ok j) :
    (j.status = .failed ∧ j.data = none ∧ j.error.isSome = true ∧ j.pdfFile = none) ∨
      (j.status = .completed ∧ j.data.isSome = true ∧ j.error = none ∧ j.pdfFile = none) := by
  unfold backgroundTask at h
  rcases hx : extractionStep pdfFile env.extract with ⟨pdfText, pdfErr⟩
  rw [hx] at h
  dsimp only at h
  cases hbuild : buildRecommendationPrompt filters (ocrArgOf pdfText) with
  | error e => rw [hbuild] at h; simp only [bind, Except.bind] at h; simp at h
  | ok p =>
    rw [hbuild] at h
    simp only [bind, Except.bind] at h
    rcases runLLMRegion_cases env.llm with ⟨e, heq⟩ | ⟨s, c, heq, hct⟩
    · rw [heq] at h
      dsimp only at h
      obtain rfl :
          ({ status := .failed, data := none, error := some e, pdfFile := none } : JobValue)
            = j := by
        simpa [pure, Except.pure] using h
      left; exact ⟨rfl, rfl, rfl, rfl⟩
    · rw [heq] at h
      dsimp only at h
      rw [JsVal.getProp_ok_of_truthy _ hct] at h
      simp only [bind, Except.bind] at h
      obtain rfl :
          ({ status := .completed
             data := some {
               id := nextId
               filters := filters
               pdfFile := pdfFile.map (fun f =>
                 { fileId := f.id
                   originalName := f.originalName
                   size := f.size
                   path := f.path
                   extractedText := pdfText.map (fun t => t.take 500 ++ "...")
                   extractionSuccess := pdfText.isSome
                   extractionError := pdfErr })
               summary := s
               recommendations := c
               count := c.propD "length"
               generatedAt := now } } : JobValue) = j := by
        simpa [pure, Except.pure] using h
      right; exact ⟨rfl, rfl, rfl, rfl⟩

theorem backgroundTask_ok_of_build {filters : JsVal} {pdfFile : Option PdfFileMeta}
    {env : PipelineEnv} {nextId now : Nat} {p : String}
    (hbuild : buildRecommendationPrompt filters
      (ocrArgOf (extractionStep pdfFile env.extract).1) = .ok p) :
    ∃ j, backgroundTask filters pdfFile env nextId now = .ok j := by
  unfold backgroundTask
  rcases hx : extractionStep pdfFile env.extract with ⟨pdfText, pdfErr⟩
  rw [hx] at hbuild
  dsimp only at hbuild ⊢
  rw [hbuild]
  simp only [bind, Except.bind]
  rcases runLLMRegion_cases env.llm with ⟨e, heq⟩ | ⟨s, c, heq, hct⟩
  · rw [heq]
    exact ⟨_, rfl⟩
  · rw [heq]
    dsimp only
    rw [JsVal.getProp_ok_of_truthy _ hct]
    simp only [bind, Except.bind]
    exact ⟨_, rfl⟩

theorem backgroundTask_error_is_build {filters : JsVal} {pdfFile : Option PdfFileMeta}
    {env : PipelineEnv} {nextId now : Nat} {e : String}
    (h : backgroundTask filters pdfFile env nextId now = .error e) :
    buildRecommendationPrompt filters
      (ocrArgOf (extractionStep pdfFile env.extract).1) = .error e := by
  unfold backgroundTask at h
  rcases hx : extractionStep pdfFile env.extract with ⟨pdfText, pdfErr⟩
  rw [hx] at h
  dsimp only at h ⊢
  cases hbuild : buildRecommendationPrompt filters (ocrArgOf pdfText) with
  | error e' =>
    rw [hbuild] at h
    simp only [bind, Except.bind] at h
    obtain rfl : e' = e := by simpa using h
    rfl
  | ok p =>
    exfalso
    rw [hbuild] at h
    simp only [bind, Except.bind] at h
    rcases runLLMRegion_cases env.llm with ⟨e2, heq⟩ | ⟨s, c, heq, hct⟩
    · rw [heq] at h
      simp [pure, Except.pure] at h
    · rw [heq] at h
      dsimp only at h
      rw [JsVal.getProp_ok_of_truthy _ hct] at h
      simp [bind, Except.bind, pure, Except.pure] at h

/-- Claim C1 counterexample: with filters whose cardTypes field is the string "VISA", the prompt builder throws (join is not a function) outside every try/catch of the background IIFE, so the background task ends in an unhandled rejection and the only job-store write is the initial non-terminal processing entry: the job is stuck. -/
theorem C1ce :
    backgroundTask filtersStringCardTypes none envLLMArray 1 0 =
      .error "TypeError: filters value .join is not a function" ∧
    jobWrites filtersStringCardTypes none envLLMArray 1 0 = [createJobWrite none] ∧
    (createJobWrite none).status = .processing := ⟨rfl, rfl, rfl⟩

/-- Claim C1 (amended): the unguarded buildRecommendationPrompt call at part_002 line 343 is the only unprotected pipeline step. Whenever it returns a prompt, every later fault (inference call, response parsing, record construction) is caught and the background task ends with a terminal job value. -/
theorem C1thm (filters : JsVal)
    (pdfFile : Option PdfFileMeta) (env : PipelineEnv) (nextId now : Nat) (p : String)
    (hbuild : buildRecommendationPrompt filters
      (ocrArgOf (extractionStep pdfFile env.extract).1) = .ok p) :
    ∃ j, backgroundTask filters pdfFile env nextId now = .ok j ∧
      j.status.isTerminal = true := by
  obtain ⟨j, hj⟩ := @backgroundTask_ok_of_build filters pdfFile env nextId now p hbuild
  refine ⟨j, hj, ?_⟩
  rcases backgroundTask_ok_shape hj with ⟨hs, _⟩ | ⟨hs, _⟩ <;> rw [hs] <;> rfl

/-- Claim C1 witness: the amended theorem at empty-object filters. -/
theorem C1wit :
    ∃ j, backgroundTask (.obj []) none envLLMArray 1 0 = .ok j ∧
      j.status.isTerminal = true := by
  obtain ⟨p, hp⟩ : ∃ p, buildRecommendationPrompt (.obj [])
      (ocrArgOf (extractionStep none envLLMArray.extract).1) = .ok p := ⟨_, rfl⟩
  exact C1thm _ none envLLMArray 1 0 p hp

/-- Claim C3 counterexample: with filters whose rewardTypes field is a string, the background task dies in the unguarded prompt-builder call, so the job store sees only the initial processing write: the job never transitions to a terminal state. -/
theorem C3ce :
    jobWrites filtersStringRewardTypes none envLLMArray 1 0 = [createJobWrite none] ∧
    (createJobWrite none).status.isTerminal = false ∧
    statusEndpoint [("job-1", createJobWrite none)] "job-1" =
      { httpStatus := 200, status := "processing", error := none, data := none } :=
  ⟨rfl, rfl, rfl⟩

/-- Claim C3 (amended): the first job-store write is always the non-terminal processing entry and polling it returns processing; every later write is terminal and there is at most one; when the background task runs to completion without an unhandled rejection the write sequence is exactly the processing entry followed by one terminal state. The unconditional 'transitions exactly once to a terminal state' of the original claim fails for stuck jobs. -/
theorem C3thm (filters : JsVal) (pdfFile : Option PdfFileMeta)
    (env : PipelineEnv) (nextId now : Nat) (jobId : String) :
    (jobWrites filters pdfFile env nextId now).head? = some (createJobWrite pdfFile) ∧
    (createJobWrite pdfFile).status = .processing ∧
    statusEndpoint [(jobId, createJobWrite pdfFile)] jobId =
      { httpStatus := 200, status := "processing", error := none, data := none } ∧
    ((jobWrites filters pdfFile env nextId now).filter
      (fun j => j.status.isTerminal)).length ≤ 1 ∧
    (∀ j ∈ (jobWrites filters pdfFile env nextId now).tail, j.status.isTerminal = true) ∧
    (∀ j, backgroundTask filters pdfFile env nextId now = .ok j →
      jobWrites filters pdfFile env nextId now = [createJobWrite pdfFile, j] ∧
        j.status.isTerminal = true) := by
  refine ⟨?_, rfl, ?_, ?_, ?_, ?_⟩
  · unfold jobWrites
    cases backgroundTask filters pdfFile env nextId now <;> rfl
  · unfold statusEndpoint
    simp [List.lookup, createJobWrite]
  · unfold jobWrites
    cases hbg : backgroundTask filters pdfFile env nextId now with
    | error e => simp [createJobWrite, JobStatus.isTerminal]
    | ok j =>
      simp [createJobWrite, JobStatus.isTerminal, List.filter]
      cases j.status <;> simp
  · unfold jobWrites
    cases hbg : backgroundTask filters pdfFile env nextId now with
    | error e => simp
    | ok j =>
      intro j' hj'
      simp at hj'
      subst hj'
      rcases backgroundTask_ok_shape hbg with ⟨hs, _⟩ | ⟨hs, _⟩ <;> rw [hs] <;> rfl
  · intro j hj
    unfold jobWrites
    rw [hj]
    refine ⟨rfl, ?_⟩
    rcases backgroundTask_ok_shape hj with ⟨hs, _⟩ | ⟨hs, _⟩ <;> rw [hs] <;> rfl

/-- Claim C3 witness: the amended theorem at empty-object filters. -/
theorem C3wit :
    (jobWrites (.obj []) none envLLMArray 1 0).head? = some (createJobWrite none) ∧
    (createJobWrite none).status = .processing ∧
    statusEndpoint [("job-w", createJobWrite none)] "job-w" =
      { httpStatus := 200, status := "processing", error := none, data := none } ∧
    ((jobWrites (.obj []) none envLLMArray 1 0).filter
      (fun j => j.status.isTerminal)).length ≤ 1 ∧
    (∀ j ∈ (jobWrites (.obj []) none envLLMArray 1 0).tail, j.status.isTerminal = true) ∧
    (∀ j, backgroundTask (.obj []) none envLLMArray 1 0 = .ok j →
      jobWrites (.obj []) none envLLMArray 1 0 = [createJobWrite none, j] ∧
        j.status.isTerminal = true) :=
  C3thm (.obj []) none envLLMArray 1 0 "job-w"

/-- Claim C4 counterexample: a job that failed with the recorded reason 'Failed to query LLM service' is reported by the status endpoint with the fixed text 'Job failed': the classified reason recorded at failure time is not returned. -/
theorem C4ce :
    backgroundTask (.obj []) none envLLMDown 1 0 =
      .ok { status := .failed, data := none, error := some llmFailMsg, pdfFile := none } ∧
    statusEndpoint
        [("job-1", { status := .failed, data := none, error := some llmFailMsg, pdfFile := none })]
        "job-1" =
      { httpStatus := 500, status := "failed", error := some "Job failed", data := none } ∧
    "Job failed" ≠ llmFailMsg := ⟨rfl, rfl, by decide⟩

/-- Claim C4 (amended): polling a failed job returns a terminal 500 failure response whose error text is the fixed non-empty string 'Job failed', whatever reason was recorded when the job failed (part_002 lines 504-508 never read job.error). -/
theorem C4thm (jobs : JobStore) (jobId : String) (job : JobValue)
    (hfind : jobs.lookup jobId = some job) (hfail : job.status = .failed) :
    statusEndpoint jobs jobId =
      { httpStatus := 500, status := "failed", error := some "Job failed", data := none } ∧
    "Job failed" ≠ "" := by
  constructor
  · unfold statusEndpoint
    rw [hfind]
    simp [hfail]
  · decide

/-- Claim C4 witness: the amended theorem on a store holding one failed job. -/
theorem C4wit :
    statusEndpoint
        [("job-1", { status := .failed, data := none, error := some llmFailMsg, pdfFile := none })]
        "job-1" =
      { httpStatus := 500, status := "failed", error := some "Job failed", data := none } ∧
    "Job failed" ≠ "" :=
  C4thm _ "job-1" _ rfl rfl

/-- Claim C9: the creation write and every job value the background task produces satisfy the store invariant: the data payload is present iff the status is completed, and the error description is present iff the status is failed. -/
theorem C9thm :
    (∀ f : Option PdfFileMeta, jobInvariant (createJobWrite f)) ∧
    (∀ (filters : JsVal) (pdfFile : Option PdfFileMeta) (env : PipelineEnv)
      (nextId now : Nat) (j : JobValue),
      backgroundTask filters pdfFile env nextId now = .ok j → jobInvariant j) := by
  constructor
  · intro f
    exact ⟨by simp [createJobWrite], by simp [createJobWrite]⟩
  · intro filters pdfFile env nextId now j h
    rcases backgroundTask_ok_shape h with ⟨hs, hd, he, _⟩ | ⟨hs, hd, he, _⟩
    · constructor
      · simp [hd, hs]
      · simp [he, hs]
    · constructor
      · simp [hd, hs]
      · simp [he, hs]

/-- Claim C9 witness: the invariant at the creation write and at the outcome of a concrete run. -/
theorem C9wit :
    jobInvariant (createJobWrite none) ∧
    (∀ j, backgroundTask (.obj []) none envLLMDown 1 0 = .ok j → jobInvariant j) :=
  ⟨C9thm.1 none, fun j h => C9thm.2 _ none envLLMDown 1 0 j h⟩

/-- Claim C2 counterexample: an answer text that is an object with summary set to the empty string and cards set to an empty array has both expected fields (the brace scan and the decode succeed, and both lookups are present), yet the parsing block rejects it with the structure-unexpected failure: the code tests the truthiness of the field values, not their presence. -/
theorem C2ce :
    braceSpanMatch emptySummaryAnswer = some emptySummaryAnswer ∧
    jsJSONParse emptySummaryAnswer =
      .ok (.obj [("summary", .str ""), ("cards", .arr [])]) ∧
    (([("summary", JsVal.str ""), ("cards", JsVal.arr [])]).lookup "summary").isSome = true ∧
    (([("summary", JsVal.str ""), ("cards", JsVal.arr [])]).lookup "cards").isSome = true ∧
    parseStage emptySummaryAnswer = .failure unexpectedStructureMsg :=
  ⟨rfl, rfl, rfl, rfl, rfl⟩

/-- Claim C7: the history query returns at most limit records (50 when no limit is given), ordered newest first by generation time; a limit of 0 returns the empty sequence. -/
theorem C7thm (history : List RecommendationRecord) (limitParam : Option Nat) :
    ((historyEndpoint history limitParam).1.history).length ≤ limitParam.getD 50 ∧
    List.Pairwise (fun a b => b.generatedAt ≤ a.generatedAt)
      (historyEndpoint history limitParam).1.history ∧
    (limitParam = some 0 → (historyEndpoint history limitParam).1.history = []) ∧
    (limitParam = none →
      (historyEndpoint history limitParam).1.history = (sortHistoryDesc history).take 50) := by
  refine ⟨?_, ?_, ?_, ?_⟩
  · simp only [historyEndpoint]
    exact List.length_take_le _ _
  · have hs := @List.sorted_mergeSort _
      (fun a b : RecommendationRecord => decide (b.generatedAt ≤ a.generatedAt))
      (fun a b c hab hbc => by simp at hab hbc ⊢; omega)
      (fun a b => by simp; omega) history
    have : List.Pairwise (fun a b : RecommendationRecord => b.generatedAt ≤ a.generatedAt)
        (sortHistoryDesc history) := by
      refine hs.imp ?_
      intro a b hab
      simpa using hab
    exact this.sublist (List.take_sublist _ _)
  · intro h; subst h; simp [historyEndpoint]
  · intro h; subst h; rfl

/-- Claim C7 witness: the theorem on a two-record store with limit 2. -/
theorem C7wit :
    ((historyEndpoint [demoRecord 1 5, demoRecord 2 9] (some 2)).1.history).length ≤ 2 ∧
    List.Pairwise (fun a b => b.generatedAt ≤ a.generatedAt)
      (historyEndpoint [demoRecord 1 5, demoRecord 2 9] (some 2)).1.history ∧
    (some 2 = some 0 →
      (historyEndpoint [demoRecord 1 5, demoRecord 2 9] (some 2)).1.history = []) ∧
    (some 2 = none →
      (historyEndpoint [demoRecord 1 5, demoRecord 2 9] (some 2)).1.history =
        (sortHistoryDesc [demoRecord 1 5, demoRecord 2 9]).take 50) :=
  C7thm [demoRecord 1 5, demoRecord 2 9] (some 2)

/-- Claim C10: the history query is not read-only: the post-state of the shared history array is its sort by generation time descending, a permutation of the records (each record itself unchanged), and on some store this differs from append order. -/
theorem C10thm (history : List RecommendationRecord) (limitParam : Option Nat) :
    (historyEndpoint history limitParam).2 = sortHistoryDesc history ∧
    ((historyEndpoint history limitParam).2).Perm history ∧
    (∃ h0 : List RecommendationRecord, (historyEndpoint h0 none).2 ≠ h0) := by
  refine ⟨rfl, List.mergeSort_perm _ _, ⟨[demoRecord 1 0, demoRecord 2 1], ?_⟩⟩
  intro hEq
  have hs := @List.sorted_mergeSort _
    (fun a b : RecommendationRecord => decide (b.generatedAt ≤ a.generatedAt))
    (fun a b c hab hbc => by simp at hab hbc ⊢; omega)
    (fun a b => by simp; omega) [demoRecord 1 0, demoRecord 2 1]
  have hEq' : (sortHistoryDesc [demoRecord 1 0, demoRecord 2 1]) =
      [demoRecord 1 0, demoRecord 2 1] := hEq
  unfold sortHistoryDesc at hEq'
  rw [hEq'] at hs
  rcases List.pairwise_cons.mp hs with ⟨hall, _⟩
  have hle := hall _ (List.mem_cons_self _ _)
  simp [demoRecord] at hle

/-- Claim C8: when document extraction fails, part_002's extractTextFromPDF returns null instead of throwing; the pipeline stores the could-not-be-processed note in the record's pdfFile sub-object and otherwise proceeds through prompt building and inference exactly as if no document had been provided. -/
theorem C8thm (filters : JsVal) (f : PdfFileMeta) (env : PipelineEnv) (nextId now : Nat)
    (hfail : extractTextFromPDF env.extract = none) :
    extractionStep (some f) env.extract = (none, some pdfCouldNotBeProcessedMsg) ∧
    (backgroundTask filters (some f) env nextId now).map stripPdf =
      (backgroundTask filters none env nextId now).map stripPdf ∧
    (∀ j r, backgroundTask filters (some f) env nextId now = .ok j → j.data = some r →
      r.pdfFile = some { fileId := f.id
                         originalName := f.originalName
                         size := f.size
                         path := f.path
                         extractedText := none
                         extractionSuccess := false
                         extractionError := some pdfCouldNotBeProcessedMsg }) ∧
    (∀ e, backgroundTask filters (some f) env nextId now = .error e →
      buildRecommendationPrompt filters .null = .error e) := by
  have hx1 : extractionStep (some f) env.extract = (none, some pdfCouldNotBeProcessedMsg) := by
    unfold extractionStep
    rw [hfail]
  have hx2 : extractionStep none env.extract = (none, none) := rfl
  refine ⟨hx1, ?_, ?_, ?_⟩
  · unfold backgroundTask
    rw [hx1, hx2]
    dsimp only
    cases hbuild : buildRecommendationPrompt filters (ocrArgOf none) with
    | error e => simp [bind, Except.bind]
    | ok p =>
      simp only [bind, Except.bind]
      rcases runLLMRegion_cases env.llm with ⟨e, heq⟩ | ⟨s, c, heq, hct⟩
      · rw [heq]
      · rw [heq]
        dsimp only
        rw [JsVal.getProp_ok_of_truthy _ hct]
        simp only [bind, Except.bind, pure, Except.pure]
        simp [Except.map, stripPdf]
  · intro j r hj hr
    unfold backgroundTask at hj
    rw [hx1] at hj
    dsimp only at hj
    cases hbuild : buildRecommendationPrompt filters (ocrArgOf none) with
    | error e => rw [hbuild] at hj; simp [bind, Except.bind] at hj
    | ok p =>
      rw [hbuild] at hj
      simp only [bind, Except.bind] at hj
      rcases runLLMRegion_cases env.llm with ⟨e, heq⟩ | ⟨s, c, heq, hct⟩
      · rw [heq] at hj
        dsimp only at hj
        obtain rfl : _ = j := by simpa [pure, Except.pure] using hj
        simp at hr
      · rw [heq] at hj
        dsimp only at hj
        rw [JsVal.getProp_ok_of_truthy _ hct] at hj
        simp only [bind, Except.bind] at hj
        obtain rfl : _ = j := by simpa [pure, Except.pure] using hj
        obtain rfl : _ = r := by simpa using hr
        rfl
  · intro e he
    have := backgroundTask_error_is_build he
    rw [hx1] at this
    exact this

/-- Claim C8 witness: the theorem on an environment whose PDF parse fails. -/
theorem C8wit :
    extractionStep (some pdfMetaSample) envPdfBroken.extract =
      (none, some pdfCouldNotBeProcessedMsg) ∧
    (backgroundTask (.obj []) (some pdfMetaSample) envPdfBroken 1 0).map stripPdf =
      (backgroundTask (.obj []) none envPdfBroken 1 0).map stripPdf ∧
    (∀ j r, backgroundTask (.obj []) (some pdfMetaSample) envPdfBroken 1 0 = .ok j →
      j.data = some r →
      r.pdfFile = some { fileId := pdfMetaSample.id
                         originalName := pdfMetaSample.originalName
                         size := pdfMetaSample.size
                         path := pdfMetaSample.path
                         extractedText := none
                         extractionSuccess := false
                         extractionError := some pdfCouldNotBeProcessedMsg }) ∧
    (∀ e, backgroundTask (.obj []) (some pdfMetaSample) envPdfBroken 1 0 = .error e →
      buildRecommendationPrompt (.obj []) .null = .error e) :=
  C8thm (.obj []) pdfMetaSample envPdfBroken 1 0 rfl

theorem strIncludes_chain_second (a b rest : String) :
    strIncludes (a ++ "\n" ++ (b ++ "\n" ++ rest)) b := by
  unfold strIncludes
  refine ⟨(a ++ "\n").data, ("\n" ++ rest).data, ?_⟩
  simp [String.data_append, List.append_assoc]

theorem cardNetworkLineE_ok {filters : JsVal}
    (hnn : filters ≠ .null) (hnu : filters ≠ .undef)
    (hsafe : joinSafe (filters.propD "cardTypes") = true) :
    ∃ cl, cardNetworkLineE filters = .ok cl ∧
      (filters.propD "cardTypes" = .undef → cl = noCardNetworkLine) := by
  unfold cardNetworkLineE
  rw [JsVal.getProp_eq_propD _ hnn hnu]
  simp only [bind, Except.bind]
  cases hcc : filters.propD "cardTypes" with
  | null => exact ⟨noCardNetworkLine, rfl, fun _ => rfl⟩
  | undef => exact ⟨noCardNetworkLine, rfl, fun _ => rfl⟩
  | bool b =>
    cases b
    · exact ⟨noCardNetworkLine, rfl, by simp⟩
    · refine ⟨noCardNetworkLine, ?_, by simp⟩
      rw [if_pos (show (JsVal.bool true).truthy = true from rfl)]
      rfl
  | num n =>
    by_cases hn : (JsVal.num n).truthy
    · rw [if_pos hn]
      refine ⟨noCardNetworkLine, ?_, by simp⟩
      rw [JsVal.getProp_ok_of_truthy _ hn]
      rfl
    · rw [if_neg hn]
      exact ⟨noCardNetworkLine, rfl, by simp⟩
  | str s =>
    by_cases hn : (JsVal.str s).truthy
    · rw [if_pos hn]
      rw [JsVal.getProp_ok_of_truthy _ hn]
      simp only [bind, Except.bind, pure, Except.pure]
      try dsimp only
      rw [hcc] at hsafe
      simp [joinSafe, hn] at hsafe
      rw [if_neg (by simp [hsafe])]
      exact ⟨noCardNetworkLine, rfl, by simp⟩
    · rw [if_neg hn]
      exact ⟨noCardNetworkLine, rfl, by simp⟩
  | arr xs =>
    rw [if_pos (show (JsVal.arr xs).truthy = true from rfl)]
    rw [JsVal.getProp_ok_of_truthy _ (show (JsVal.arr xs).truthy = true from rfl)]
    simp only [bind, Except.bind, pure, Except.pure]
    try dsimp only
    by_cases hgt : ((JsVal.arr xs).propD "length").gtZero = true
    · rw [if_pos hgt]
      exact ⟨_, rfl, by simp⟩
    · rw [if_neg hgt]
      exact ⟨noCardNetworkLine, rfl, by simp⟩
  | obj fs =>
    rw [if_pos (show (JsVal.obj fs).truthy = true from rfl)]
    rw [JsVal.getProp_ok_of_truthy _ (show (JsVal.obj fs).truthy = true from rfl)]
    simp only [bind, Except.bind, pure, Except.pure]
    try dsimp only
    rw [hcc] at hsafe
    simp [joinSafe, JsVal.truthy] at hsafe
    rw [if_neg (by simp [hsafe])]
    exact ⟨noCardNetworkLine, rfl, by simp⟩

theorem rewardTypesLineE_ok {filters : JsVal}
    (hnn : filters ≠ .null) (hnu : filters ≠ .undef)
    (hsafe : joinSafe (filters.propD "rewardTypes") = true) :
    ∃ rl, rewardTypesLineE filters = .ok rl := by
  unfold rewardTypesLineE
  rw [JsVal.getProp_eq_propD _ hnn hnu]
  simp only [bind, Except.bind]
  cases hcc : filters.propD "rewardTypes" with
  | null => exact ⟨_, rfl⟩
  | undef => exact ⟨_, rfl⟩
  | bool b =>
    cases b
    · exact ⟨_, rfl⟩
    · rw [if_pos (show (JsVal.bool true).truthy = true from rfl)]
      exact ⟨_, rfl⟩
  | num n =>
    by_cases hn : (JsVal.num n).truthy
    · rw [if_pos hn, JsVal.getProp_ok_of_truthy _ hn]
      exact ⟨_, rfl⟩
    · rw [if_neg hn]
      exact ⟨_, rfl⟩
  | str s =>
    by_cases hn : (JsVal.str s).truthy
    · rw [if_pos hn, JsVal.getProp_ok_of_truthy _ hn]
      simp only [bind, Except.bind, pure, Except.pure]
      try dsimp only
      rw [hcc] at hsafe
      simp [joinSafe, hn] at hsafe
      rw [if_neg (by simp [hsafe])]
      exact ⟨_, rfl⟩
    · rw [if_neg hn]
      exact ⟨_, rfl⟩
  | arr xs =>
    rw [if_pos (show (JsVal.arr xs).truthy = true from rfl),
      JsVal.getProp_ok_of_truthy _ (show (JsVal.arr xs).truthy = true from rfl)]
    simp only [bind, Except.bind, pure, Except.pure]
    try dsimp only
    by_cases hgt : ((JsVal.arr xs).propD "length").gtZero = true
    · rw [if_pos hgt]
      exact ⟨_, rfl⟩
    · rw [if_neg hgt]
      exact ⟨_, rfl⟩
  | obj fs =>
    rw [if_pos (show (JsVal.obj fs).truthy = true from rfl),
      JsVal.getProp_ok_of_truthy _ (show (JsVal.obj fs).truthy = true from rfl)]
    simp only [bind, Except.bind, pure, Except.pure]
    try dsimp only
    rw [hcc] at hsafe
    simp [joinSafe, JsVal.truthy] at hsafe
    rw [if_neg (by simp [hsafe])]
    exact ⟨_, rfl⟩

theorem annualFeeLineE_ok {filters : JsVal}
    (hnn : filters ≠ .null) (hnu : filters ≠ .undef) :
    ∃ fl, annualFeeLineE filters = .ok fl := by
  unfold annualFeeLineE
  rw [JsVal.getProp_eq_propD _ hnn hnu]
  simp only [bind, Except.bind]
  by_cases hn : (filters.propD "annualFeeRange").truthy
  · rw [if_pos hn]; exact ⟨_, rfl⟩
  · rw [if_neg hn]; exact ⟨_, rfl⟩

theorem additionalReqLineE_ok {filters : JsVal}
    (hnn : filters ≠ .null) (hnu : filters ≠ .undef) :
    ∃ al, additionalReqLineE filters = .ok al := by
  unfold additionalReqLineE
  rw [JsVal.getProp_eq_propD _ hnn hnu]
  simp only [bind, Except.bind]
  by_cases hn : (filters.propD "additionalRequirements").truthy
  · rw [if_pos hn]; exact ⟨_, rfl⟩
  · rw [if_neg hn]; exact ⟨_, rfl⟩

/-- Claim C5 counterexample: a filters value whose cardTypes is a plain object carrying a positive length property is truthy with a length greater than zero, so the builder reaches the join call and throws: not every malformed field is tolerated. -/
theorem C5ce :
    buildRecommendationPrompt filtersLengthObject .null =
      .error "TypeError: filters value .join is not a function" := rfl

/-- Claim C5 (amended): for every non-null, non-undefined filters value whose cardTypes and rewardTypes fields are join-safe (an array, or a value that never reaches the join call), the prompt builder returns a prompt string without throwing; and when cardTypes is absent the prompt carries the no-card-network-restriction line. -/
theorem C5thm (filters ocr : JsVal)
    (hnn : filters ≠ .null) (hnu : filters ≠ .undef)
    (hct : joinSafe (filters.propD "cardTypes") = true)
    (hrt : joinSafe (filters.propD "rewardTypes") = true) :
    (∃ p, buildRecommendationPrompt filters ocr = .ok p) ∧
    (filters.propD "cardTypes" = .undef →
      ∀ p, buildRecommendationPrompt filters ocr = .ok p →
        strIncludes p noCardNetworkLine) := by
  obtain ⟨cl, hcl, hclu⟩ := cardNetworkLineE_ok hnn hnu hct
  obtain ⟨rl, hrl⟩ := rewardTypesLineE_ok hnn hnu hrt
  obtain ⟨fl, hfl⟩ := annualFeeLineE_ok hnn hnu
  obtain ⟨al, hal⟩ := additionalReqLineE_ok hnn hnu
  constructor
  · unfold buildRecommendationPrompt
    rw [hcl, hrl, hfl, hal]
    simp only [bind, Except.bind]
    exact ⟨_, rfl⟩
  · intro hundef p hp
    unfold buildRecommendationPrompt at hp
    rw [hcl, hrl, hfl, hal] at hp
    simp only [bind, Except.bind, pure, Except.pure] at hp
    rw [Except.ok.injEq] at hp
    subst hp
    rw [hclu hundef]
    exact strIncludes_chain_second _ _ _

/-- Claim C5 witness: the amended theorem at filters with a numeric rewardTypes field and no cardTypes. -/
theorem C5wit :
    (∃ p, buildRecommendationPrompt (.obj [("rewardTypes", .num 7)]) .null = .ok p) ∧
    ((JsVal.obj [("rewardTypes", .num 7)]).propD "cardTypes" = .undef →
      ∀ p, buildRecommendationPrompt (.obj [("rewardTypes", .num 7)]) .null = .ok p →
        strIncludes p noCardNetworkLine) :=
  C5thm (.obj [("rewardTypes", .num 7)]) .null
    (fun h => JsVal.noConfusion h) (fun h => JsVal.noConfusion h) rfl rfl

theorem noRestrictionPhrase_no_newline : '\n' ∉ noRestrictionPhrase.data := by decide

theorem cardNetworkLineE_mandatory {filters : JsVal} {cts : List JsVal}
    (hnn : filters ≠ .null) (hnu : filters ≠ .undef)
    (hct : filters.propD "cardTypes" = .arr cts) (hne : cts ≠ []) :
    cardNetworkLineE filters =
      .ok (cardNetworkPre ++ joinedLabels cts ++ cardNetworkPost) := by
  unfold cardNetworkLineE
  rw [JsVal.getProp_eq_propD _ hnn hnu, hct]
  simp only [bind, Except.bind]
  rw [if_pos (show (JsVal.arr cts).truthy = true from rfl)]
  rw [JsVal.getProp_ok_of_truthy _ (show (JsVal.arr cts).truthy = true from rfl)]
  simp only [bind, Except.bind, pure, Except.pure]
  try dsimp only
  rw [if_pos (show ((JsVal.arr cts).propD "length").gtZero = true by
    rw [show (JsVal.arr cts).propD "length" = .num cts.length from rfl]
    simp [JsVal.gtZero]
    exact_mod_cast List.length_pos.mpr hne)]
  rfl

set_option maxRecDepth 10000 in
/-- Claim C6 (amended): for every filters value whose cardTypes is a non-empty list, the built prompt contains the mandatory card-network line built from the joined labels; and provided none of the input-derived fragments (the joined labels, the reward and fee and additional-requirements lines, the spending block) contains the phrase 'No card network restriction', the prompt does not contain that contradictory phrase. -/
theorem C6thm (filters ocr : JsVal) (cts : List JsVal) (p rl fl al : String)
    (hct : filters.propD "cardTypes" = .arr cts) (hne : cts ≠ [])
    (hrlE : rewardTypesLineE filters = .ok rl)
    (hflE : annualFeeLineE filters = .ok fl)
    (halE : additionalReqLineE filters = .ok al)
    (hbuild : buildRecommendationPrompt filters ocr = .ok p)
    (hji : ¬ strIncludes (joinedLabels cts) noRestrictionPhrase)
    (hrli : ¬ strIncludes rl noRestrictionPhrase)
    (hfli : ¬ strIncludes fl noRestrictionPhrase)
    (hali : ¬ strIncludes al noRestrictionPhrase)
    (hocr : ¬ strIncludes (spendingBlock ocr) noRestrictionPhrase) :
    strIncludes p (cardNetworkPre ++ joinedLabels cts ++ cardNetworkPost) ∧
    ¬ strIncludes p noRestrictionPhrase := by
  have hnn : filters ≠ .null := by
    rintro rfl
    rw [show buildRecommendationPrompt .null ocr =
      .error "TypeError: Cannot read properties of null (reading cardTypes)" from rfl] at hbuild
    exact Except.noConfusion hbuild
  have hnu : filters ≠ .undef := by
    rintro rfl
    rw [show buildRecommendationPrompt .undef ocr =
      .error "TypeError: Cannot read properties of undefined (reading cardTypes)" from rfl] at hbuild
    exact Except.noConfusion hbuild
  have hclE := cardNetworkLineE_mandatory hnn hnu hct hne
  unfold buildRecommendationPrompt at hbuild
  rw [hclE, hrlE, hflE, halE] at hbuild
  simp only [bind, Except.bind, pure, Except.pure] at hbuild
  rw [Except.ok.injEq] at hbuild
  subst hbuild
  have hsumm : ¬ strIncludes
      (summaryJsonPre ++ summaryInstructionOf ocr ++ summaryJsonPost) noRestrictionPhrase := by
    unfold summaryInstructionOf
    by_cases ho : ocr.truthy
    · rw [if_pos ho]; decide
    · rw [if_neg ho]; decide
  constructor
  · exact strIncludes_chain_second _ _ _
  · have hcard : ¬ strIncludes
        (cardNetworkPre ++ joinedLabels cts ++ cardNetworkPost) noRestrictionPhrase := by
      unfold strIncludes at hji ⊢
      rw [String.data_append, String.data_append, List.append_assoc]
      have hL : ∀ k, k < noRestrictionPhrase.data.length → 0 < k →
          ¬ (noRestrictionPhrase.data.take k <:+ cardNetworkPre.data) := by decide
      have hR : ∀ k, k < noRestrictionPhrase.data.length → 0 < k →
          ¬ (noRestrictionPhrase.data.drop k <+: cardNetworkPost.data) := by decide
      refine not_infix_append_of_crossFree (by decide) ?_ (fun k h1 h2 => Or.inl (hL k h1 h2))
      exact not_infix_append_of_crossFree hji (by decide) (fun k h1 h2 => Or.inr (hR k h1 h2))
    unfold strIncludes
    have hnl := noRestrictionPhrase_no_newline
    refine not_includes_append_nl hnl (by decide) ?_
    refine not_includes_append_nl hnl hcard ?_
    refine not_includes_append_nl hnl hrli ?_
    refine not_includes_append_nl hnl hfli ?_
    refine not_includes_append_nl hnl hali ?_
    refine not_includes_append_nl hnl (by decide) ?_
    refine not_includes_append_nl hnl hocr ?_
    refine not_includes_append_nl hnl (by decide) ?_
    refine not_includes_append_nl hnl (by decide) ?_
    refine not_includes_append_nl hnl (by decide) ?_
    refine not_includes_append_nl hnl (by decide) ?_
    refine not_includes_append_nl hnl (by decide) ?_
    refine not_includes_append_nl hnl (by decide) ?_
    refine not_includes_append_nl hnl (by decide) ?_
    refine not_includes_append_nl hnl (by decide) ?_
    refine not_includes_append_nl hnl (by decide) ?_
    refine not_includes_append_nl hnl (by decide) ?_
    refine not_includes_append_nl hnl (by decide) ?_
    refine not_includes_append_nl hnl (by decide) ?_
    refine not_includes_append_nl hnl (by decide) ?_
    refine not_includes_append_nl hnl (by decide) ?_
    refine not_includes_append_nl hnl (by decide) ?_
    refine not_includes_append_nl hnl (by decide) ?_
    refine not_includes_append_nl hnl hsumm ?_
    refine not_includes_append_nl hnl (by decide) ?_
    refine not_includes_append_nl hnl (by decide) ?_
    refine not_includes_append_nl hnl (by decide) ?_
    refine not_includes_append_nl hnl (by decide) ?_
    refine not_includes_append_nl hnl (by decide) ?_
    refine not_includes_append_nl hnl (by decide) ?_
    refine not_includes_append_nl hnl (by decide) ?_
    refine not_includes_append_nl hnl (by decide) ?_
    refine not_includes_append_nl hnl (by decide) ?_
    refine not_includes_append_nl hnl (by decide) ?_
    refine not_includes_append_nl hnl (by decide) ?_
    refine not_includes_append_nl hnl (by decide) ?_
    refine not_includes_append_nl hnl (by decide) ?_
    refine not_includes_append_nl hnl (by decide) ?_
    exact (by decide : ¬ (noRestrictionPhrase.data <:+: seg39.data))

/-- Claim C6 counterexample: a filters value whose cardTypes list consists of the label 'No card network restriction' itself yields a prompt that does contain the contradictory no-restriction language even though the card-network constraint is a non-empty list. -/
theorem C6ce :
    filtersInjection.propD "cardTypes" = .arr [.str noRestrictionPhrase] ∧
    ∃ p, buildRecommendationPrompt filtersInjection .null = .ok p ∧
      strIncludes p noRestrictionPhrase := by
  refine ⟨rfl, ?_⟩
  have hclE : cardNetworkLineE filtersInjection =
      .ok (cardNetworkPre ++ noRestrictionPhrase ++ cardNetworkPost) := rfl
  obtain ⟨p, hp⟩ : ∃ p, buildRecommendationPrompt filtersInjection .null = .ok p := ⟨_, rfl⟩
  refine ⟨p, hp, ?_⟩
  unfold buildRecommendationPrompt at hp
  rw [hclE] at hp
  rw [show rewardTypesLineE filtersInjection = .ok "- No reward type preference" from rfl] at hp
  rw [show annualFeeLineE filtersInjection = .ok "- No annual fee preference" from rfl] at hp
  rw [show additionalReqLineE filtersInjection = .ok "" from rfl] at hp
  simp only [bind, Except.bind, pure, Except.pure] at hp
  rw [Except.ok.injEq] at hp
  subst hp
  unfold strIncludes
  have h1 : noRestrictionPhrase.data <:+:
      (cardNetworkPre ++ noRestrictionPhrase ++ cardNetworkPost).data := by
    refine ⟨cardNetworkPre.data, cardNetworkPost.data, ?_⟩
    simp [String.data_append]
  have h2 := strIncludes_chain_second promptIntro
    (cardNetworkPre ++ noRestrictionPhrase ++ cardNetworkPost)
    ("- No reward type preference" ++ "\n" ++ ("- No annual fee preference" ++ "\n" ++ ("" ++ "\n" ++ (seg06 ++ "\n" ++ (spendingBlock .null ++ "\n" ++ (seg08 ++ "\n" ++ (seg09 ++ "\n" ++ (seg10 ++ "\n" ++ (seg11 ++ "\n" ++ (seg12 ++ "\n" ++ (seg13 ++ "\n" ++ (seg14 ++ "\n" ++ (seg15 ++ "\n" ++ (seg16 ++ "\n" ++ (seg17 ++ "\n" ++ (seg18 ++ "\n" ++ (seg19 ++ "\n" ++ (seg20 ++ "\n" ++ (seg21 ++ "\n" ++ (seg22 ++ "\n" ++ (seg23 ++ "\n" ++ ((summaryJsonPre ++ summaryInstructionOf .null ++ summaryJsonPost) ++ "\n" ++ (seg25 ++ "\n" ++ (seg26 ++ "\n" ++ (seg27 ++ "\n" ++ (seg28 ++ "\n" ++ (seg29 ++ "\n" ++ (seg30 ++ "\n" ++ (seg31 ++ "\n" ++ (seg32 ++ "\n" ++ (seg33 ++ "\n" ++ (seg34 ++ "\n" ++ (seg35 ++ "\n" ++ (seg36 ++ "\n" ++ (seg37 ++ "\n" ++ (seg38 ++ "\n" ++ seg39))))))))))))))))))))))))))))))))))))
  unfold strIncludes at h2
  exact h1.trans h2

/-- Claim C6 witness: the amended theorem at cardTypes VISA with no document. -/
theorem C6wit :
    ∃ p, buildRecommendationPrompt (.obj [("cardTypes", .arr [.str "VISA"])]) .null = .ok p ∧
      strIncludes p (cardNetworkPre ++ joinedLabels [.str "VISA"] ++ cardNetworkPost) ∧
      ¬ strIncludes p noRestrictionPhrase := by
  obtain ⟨p, hp⟩ :
      ∃ p, buildRecommendationPrompt (.obj [("cardTypes", .arr [.str "VISA"])]) .null = .ok p :=
    ⟨_, rfl⟩
  have h := C6thm (.obj [("cardTypes", .arr [.str "VISA"])]) .null [.str "VISA"] p
    "- No reward type preference" "- No annual fee preference" "" rfl (by simp) rfl rfl rfl hp
    (by decide) (by decide) (by decide) (by decide) (by decide)
  exact ⟨p, hp, h.1, h.2⟩
